import Mathlib

/-!
Verification of the firefly-compositor core: a shallow embedding of the
scene graph (windows, layers, damage), the blitter, and the server message
handlers, with theorems checking the natural-language specification
against the code.
-/

namespace Firefly

/-! ## Geometry primitives

Modelled from the spec: the geometry crate (gfx_types::geometry) is not part
of the compositor sources; rectangles follow the spec contract of section 4.A:
half-open [x, x+w) semantics, is_empty when any dimension is zero,
intersection returning None when disjoint, union as bounding box. -/

/-- Modelled from the spec: gfx_types::geometry::Point, integer pixel
coordinates (may be negative). -/
structure Point where
  x : Int
  y : Int
deriving Repr, DecidableEq

/-- Modelled from the spec: gfx_types::geometry::Size, u32 pixel dimensions. -/
structure Size where
  width : Nat
  height : Nat
deriving Repr, DecidableEq

/-- Modelled from the spec: gfx_types::geometry::Rect with integer origin and
u32 dimensions, half-open [x, x+w) x [y, y+h) semantics. -/
structure Rect where
  x : Int
  y : Int
  width : Nat
  height : Nat
deriving Repr, DecidableEq

namespace Rect

def ZERO : Rect := ⟨0, 0, 0, 0⟩

/-- Modelled from the spec: right edge x + w (exclusive). -/
def right (r : Rect) : Int := r.x + r.width

/-- Modelled from the spec: bottom edge y + h (exclusive). -/
def bottom (r : Rect) : Int := r.y + r.height

/-- Modelled from the spec: a rect is empty when any dimension is zero. -/
def is_empty (r : Rect) : Bool := r.width == 0 || r.height == 0

/-- Modelled from the spec: point containment with half-open semantics. -/
def contains_point (r : Rect) (p : Point) : Bool :=
  decide (r.x ≤ p.x) && decide (p.x < r.right) &&
  decide (r.y ≤ p.y) && decide (p.y < r.bottom)

/-- Modelled from the spec: two rects intersect when the half-open overlap
is nonempty in both axes. -/
def intersects (a b : Rect) : Bool :=
  decide (max a.x b.x < min a.right b.right) &&
  decide (max a.y b.y < min a.bottom b.bottom)

/-- Modelled from the spec: exact half-open intersection, None if disjoint. -/
def intersection (a b : Rect) : Option Rect :=
  let nx := max a.x b.x
  let ny := max a.y b.y
  let nr := min a.right b.right
  let nb := min a.bottom b.bottom
  if nx < nr ∧ ny < nb then
    some ⟨nx, ny, (nr - nx).toNat, (nb - ny).toNat⟩
  else
    none

/-- Modelled from the spec: union as bounding box. -/
def union (a b : Rect) : Rect :=
  let ux := min a.x b.x
  let uy := min a.y b.y
  let ur := max a.right b.right
  let ub := max a.bottom b.bottom
  ⟨ux, uy, (ur - ux).toNat, (ub - uy).toNat⟩

/-- Modelled from the spec: translate the rect by a delta. -/
def offset (r : Rect) (dx dy : Int) : Rect := ⟨r.x + dx, r.y + dy, r.width, r.height⟩

/-- Modelled from the spec: Rect::from_size, a rect at the origin. -/
def from_size (s : Size) : Rect := ⟨0, 0, s.width, s.height⟩

end Rect

/-! ## Window types (src/scene/window.rs and gfx_types::window) -/

/-- Modelled from the spec: gfx_types::window::WindowState. -/
inductive WindowState where
  | Normal
  | Minimized
  | Maximized
deriving Repr, DecidableEq

/-- Modelled from the spec: gfx_types::window::LayerType, the seven stacking
layers. -/
inductive LayerType where
  | Background
  | Normal
  | Top
  | Panel
  | Overlay
  | Lock
  | Cursor
deriving Repr, DecidableEq

/-- Modelled from the spec: gfx_types::window::WindowFlags as one boolean per
flag bit (Transparent, HasShadow, Borderless, Overlay, Background). -/
structure WindowFlags where
  transparent : Bool
  has_shadow : Bool
  borderless : Bool
  overlay : Bool
  background : Bool
deriving Repr, DecidableEq

def WindowFlags.NONE : WindowFlags := ⟨false, false, false, false, false⟩

/-- Embedding of scene::window::Window (pixel memory elided: no claim reads
window pixels through the scene graph). -/
structure Window where
  id : Nat
  position : Point
  size : Size
  flags : WindowFlags
  state : WindowState
  layer : LayerType
  has_content : Bool
  title : String
  restore_rect : Option Rect
  opacity : Nat
deriving Repr, DecidableEq

namespace Window

/-- Embedding of Window::new. -/
def new (id : Nat) (size : Size) : Window :=
  { id := id
    position := ⟨0, 0⟩
    size := size
    flags := WindowFlags.NONE
    state := WindowState.Normal
    layer := LayerType.Normal
    has_content := false
    title := ""
    restore_rect := none
    opacity := 255 }

/-- Embedding of Window::rect. -/
def rect (w : Window) : Rect :=
  ⟨w.position.x, w.position.y, w.size.width, w.size.height⟩

/-- Embedding of Window::is_visible: state != Minimized and has_content. -/
def is_visible (w : Window) : Bool :=
  w.state != WindowState.Minimized && w.has_content

/-- Embedding of Window::has_decorations: not BORDERLESS. -/
def has_decorations (w : Window) : Bool := !w.flags.borderless

/-- Embedding of Window::move_to. -/
def move_to (w : Window) (x y : Int) : Window :=
  { w with position := ⟨x, y⟩ }

/-- Embedding of Window::minimize: snapshot rect into restore_rect and set
state Minimized, only when not already Minimized. -/
def minimize (w : Window) : Window :=
  if w.state != WindowState.Minimized then
    { w with restore_rect := some w.rect, state := WindowState.Minimized }
  else
    w

/-- Embedding of Window::restore: take restore_rect (if any) back into
position and size, and set state Normal. -/
def restore (w : Window) : Window :=
  match w.restore_rect with
  | some r =>
      { w with position := ⟨r.x, r.y⟩
               size := ⟨r.width, r.height⟩
               restore_rect := none
               state := WindowState.Normal }
  | none => { w with state := WindowState.Normal }

/-- Embedding of Window::maximize: snapshot rect, move to origin, take the
screen size, set state Maximized, only when not already Maximized. -/
def maximize (w : Window) (screen_size : Size) : Window :=
  if w.state != WindowState.Maximized then
    { w with restore_rect := some w.rect
             position := ⟨0, 0⟩
             size := screen_size
             state := WindowState.Maximized }
  else
    w

/-- Embedding of Window::contains_point. -/
def contains_point (w : Window) (x y : Int) : Bool :=
  w.rect.contains_point ⟨x, y⟩

/-- Embedding of Window::to_local. -/
def to_local (w : Window) (x y : Int) : Point :=
  ⟨x - w.position.x, y - w.position.y⟩

end Window

/-! ## Layer manager (src/scene/layer.rs) -/

/-- Embedding of scene::layer::Layer: the list of window ids, bottom to top. -/
structure Layer where
  windows : List Nat
deriving Repr, DecidableEq

namespace Layer

/-- Embedding of Layer::add_window: append if absent. -/
def add_window (l : Layer) (id : Nat) : Layer :=
  if l.windows.contains id then l else ⟨l.windows ++ [id]⟩

/-- Embedding of Layer::remove_window. -/
def remove_window (l : Layer) (id : Nat) : Layer :=
  ⟨l.windows.filter (fun w => w ≠ id)⟩

/-- Embedding of Layer::bring_to_front: remove then append, when present. -/
def bring_to_front (l : Layer) (id : Nat) : Layer :=
  if l.windows.contains id then
    ⟨l.windows.filter (fun w => w ≠ id) ++ [id]⟩
  else l

/-- Embedding of Layer::iter_top_to_bottom (the Vec reversed). -/
def iter_top_to_bottom (l : Layer) : List Nat := l.windows.reverse

end Layer

/-- Embedding of scene::layer::LayerManager: the seven fixed layers. -/
structure LayerManager where
  background : Layer
  normal : Layer
  top : Layer
  panel : Layer
  overlay : Layer
  lock : Layer
  cursor : Layer
deriving Repr, DecidableEq

namespace LayerManager

def new : LayerManager :=
  ⟨⟨[]⟩, ⟨[]⟩, ⟨[]⟩, ⟨[]⟩, ⟨[]⟩, ⟨[]⟩, ⟨[]⟩⟩

/-- Embedding of LayerManager::get. -/
def get (m : LayerManager) : LayerType → Layer
  | LayerType.Background => m.background
  | LayerType.Normal => m.normal
  | LayerType.Top => m.top
  | LayerType.Panel => m.panel
  | LayerType.Overlay => m.overlay
  | LayerType.Lock => m.lock
  | LayerType.Cursor => m.cursor

/-- Helper replacing the Rust get_mut + mutation pattern: apply f to one
layer. -/
def modify (m : LayerManager) (lt : LayerType) (f : Layer → Layer) : LayerManager :=
  match lt with
  | LayerType.Background => { m with background := f m.background }
  | LayerType.Normal => { m with normal := f m.normal }
  | LayerType.Top => { m with top := f m.top }
  | LayerType.Panel => { m with panel := f m.panel }
  | LayerType.Overlay => { m with overlay := f m.overlay }
  | LayerType.Lock => { m with lock := f m.lock }
  | LayerType.Cursor => { m with cursor := f m.cursor }

/-- Embedding of LayerManager::add_window_to_layer. -/
def add_window_to_layer (m : LayerManager) (id : Nat) (lt : LayerType) : LayerManager :=
  m.modify lt (fun l => l.add_window id)

/-- Embedding of LayerManager::remove_window: removes from every layer. -/
def remove_window (m : LayerManager) (id : Nat) : LayerManager :=
  { background := m.background.remove_window id
    normal := m.normal.remove_window id
    top := m.top.remove_window id
    panel := m.panel.remove_window id
    overlay := m.overlay.remove_window id
    lock := m.lock.remove_window id
    cursor := m.cursor.remove_window id }

/-- Embedding of LayerManager::iter_top_to_bottom: Cursor, Lock, Overlay,
Panel, Top, Normal, Background, each layer from top to bottom. -/
def iter_top_to_bottom (m : LayerManager) : List Nat :=
  m.cursor.iter_top_to_bottom ++ m.lock.iter_top_to_bottom ++
  m.overlay.iter_top_to_bottom ++ m.panel.iter_top_to_bottom ++
  m.top.iter_top_to_bottom ++ m.normal.iter_top_to_bottom ++
  m.background.iter_top_to_bottom

end LayerManager

/-! ## Damage tracker (src/scene/damage.rs) -/

/-- Embedding of scene::damage::DamageTracker. -/
structure DamageTracker where
  regions : List Rect
  max_regions : Nat
  full_damage : Bool
  screen_rect : Rect
deriving Repr, DecidableEq

namespace DamageTracker

/-- Embedding of DamageTracker::new. -/
def new : DamageTracker :=
  { regions := [], max_regions := 16, full_damage := true, screen_rect := Rect.ZERO }

/-- Embedding of DamageTracker::set_size. -/
def set_size (t : DamageTracker) (width height : Nat) : DamageTracker :=
  { t with screen_rect := ⟨0, 0, width, height⟩ }

/-- Bounding box of a list of rects: the fold of union over the tail, ZERO
for the empty list (the regions arm of DamageTracker::bounding_box). -/
def list_bbox : List Rect → Rect
  | [] => Rect.ZERO
  | r :: rest => rest.foldl Rect.union r

/-- Embedding of DamageTracker::bounding_box: the screen rect while the full
flag is set, otherwise the union of all regions. -/
def bounding_box (t : DamageTracker) : Rect :=
  if t.full_damage then t.screen_rect
  else
    match t.regions with
    | [] => Rect.ZERO
    | r :: rest => rest.foldl Rect.union r

/-- Embedding of DamageTracker::collapse. -/
def collapse (t : DamageTracker) : DamageTracker :=
  if t.regions.length ≤ 1 then t
  else { t with regions := [t.bounding_box] }

/-- Helper mirroring the merge loop in DamageTracker::add: replace the first
region intersecting c by its union with c; none when no region intersects. -/
def merge_first : List Rect → Rect → Option (List Rect)
  | [], _ => none
  | r :: rs, c =>
      if r.intersects c then some (r.union c :: rs)
      else (merge_first rs c).map (fun rs2 => r :: rs2)

/-- Embedding of DamageTracker::add. -/
def add (t : DamageTracker) (rect : Rect) : DamageTracker :=
  if rect.is_empty then t
  else
    match rect.intersection t.screen_rect with
    | none => t
    | some clipped =>
        match merge_first t.regions clipped with
        | some rs => { t with regions := rs }
        | none =>
            let t1 := { t with regions := t.regions ++ [clipped] }
            if t1.regions.length > t1.max_regions then t1.collapse else t1

/-- Embedding of DamageTracker::damage_full. -/
def damage_full (t : DamageTracker) (width height : Nat) : DamageTracker :=
  { t with screen_rect := ⟨0, 0, width, height⟩, full_damage := true, regions := [] }

/-- Embedding of DamageTracker::clear. -/
def clear (t : DamageTracker) : DamageTracker :=
  { t with regions := [], full_damage := false }

/-- Embedding of DamageTracker::has_damage. -/
def has_damage (t : DamageTracker) : Bool :=
  t.full_damage || !t.regions.isEmpty

end DamageTracker

/-! ## Window map helpers

The engine stores windows in a BTreeMap keyed by id; the embedding uses an
association list with the same lookup / insert / update / remove semantics. -/

/-- Lookup in the id-to-window map (BTreeMap::get). -/
def wlookup (ws : List (Nat × Window)) (id : Nat) : Option Window :=
  (ws.find? (fun p => p.1 == id)).map (fun p => p.2)

/-- Insert into the id-to-window map (BTreeMap::insert): replace the entry
when the key is present, otherwise append. -/
def winsert : List (Nat × Window) → Nat → Window → List (Nat × Window)
  | [], id, w => [(id, w)]
  | q :: t, id, w => if q.1 == id then (id, w) :: t else q :: winsert t id w

/-- Update one entry of the map, mirroring the get_mut + mutate pattern. -/
def wupdate (ws : List (Nat × Window)) (id : Nat) (f : Window → Window) : List (Nat × Window) :=
  ws.map (fun p => if p.1 == id then (p.1, f p.2) else p)

/-- Remove from the id-to-window map (BTreeMap::remove). -/
def wremove (ws : List (Nat × Window)) (id : Nat) : List (Nat × Window) :=
  ws.filter (fun p => p.1 ≠ id)

/-! ## Render engine (src/render/compositor.rs)

The backbuffer, cursor bitmap and frame counter are elided: no claim
examined here depends on them; the pixel pipeline is verified separately
through the blitter entry points. -/

/-- Embedding of render::compositor::RenderEngine (scene-graph part). -/
structure RenderEngine where
  screen : Size
  layers : LayerManager
  windows : List (Nat × Window)
  damage : DamageTracker
  next_window_id : Nat
  focused_window : Option Nat
deriving Repr, DecidableEq

namespace RenderEngine

/-- Embedding of RenderEngine::new for a given display size. -/
def new (screen : Size) : RenderEngine :=
  { screen := screen
    layers := LayerManager.new
    windows := []
    damage := (DamageTracker.new.set_size screen.width screen.height)
    next_window_id := 1
    focused_window := none }

/-- Embedding of RenderEngine::size. -/
def size (e : RenderEngine) : Size := e.screen

/-- Embedding of RenderEngine::get_window. -/
def get_window (e : RenderEngine) (id : Nat) : Option Window :=
  wlookup e.windows id

/-- Embedding of RenderEngine::create_window: allocate the next id, insert
the window, append it to its layer, damage its rect (Rect::from_size). -/
def create_window (e : RenderEngine) (size : Size) (layer : LayerType) (title : String) :
    Nat × RenderEngine :=
  let id := e.next_window_id
  let w := { Window.new id size with layer := layer, title := title }
  (id,
   { e with next_window_id := id + 1
            windows := winsert e.windows id w
            layers := e.layers.add_window_to_layer id layer
            damage := e.damage.add (Rect.from_size size) })

/-- Embedding of RenderEngine::destroy_window: damage the rect, remove from
the layers and from the map, clear focus if it was focused; no-op on an
unknown id. -/
def destroy_window (e : RenderEngine) (id : Nat) : RenderEngine :=
  match wlookup e.windows id with
  | none => e
  | some w =>
      let e1 := { e with windows := wremove e.windows id
                         damage := e.damage.add w.rect
                         layers := e.layers.remove_window id }
      if e1.focused_window = some id then { e1 with focused_window := none } else e1

/-- Embedding of RenderEngine::move_window: damage old rect, move, damage
new rect. -/
def move_window (e : RenderEngine) (id : Nat) (x y : Int) : RenderEngine :=
  match wlookup e.windows id with
  | none => e
  | some w =>
      let w2 := w.move_to x y
      { e with windows := wupdate e.windows id (fun win => win.move_to x y)
               damage := (e.damage.add w.rect).add w2.rect }

/-- Embedding of RenderEngine::bring_to_front: raise within the window's own
layer and damage its rect. -/
def bring_to_front (e : RenderEngine) (id : Nat) : RenderEngine :=
  match wlookup e.windows id with
  | none => e
  | some w =>
      { e with layers := e.layers.modify w.layer (fun l => l.bring_to_front id)
               damage := e.damage.add w.rect }

/-- Embedding of RenderEngine::mark_window_has_content: first-commit latch,
damaging the rect on the false-to-true transition only. -/
def mark_window_has_content (e : RenderEngine) (id : Nat) : RenderEngine :=
  match wlookup e.windows id with
  | none => e
  | some w =>
      if !w.has_content then
        { e with windows := wupdate e.windows id (fun win => { win with has_content := true })
                 damage := e.damage.add w.rect }
      else e

/-- Embedding of RenderEngine::mark_damage. -/
def mark_damage (e : RenderEngine) (id : Nat) : RenderEngine :=
  match wlookup e.windows id with
  | none => e
  | some w => { e with damage := e.damage.add w.rect }

/-- Embedding of RenderEngine::full_screen_damage. -/
def full_screen_damage (e : RenderEngine) : RenderEngine :=
  { e with damage := e.damage.damage_full e.screen.width e.screen.height }

/-- Hit-test predicate used by window_at_point: the window exists, is
visible and its rect contains the point. -/
def hit_test (e : RenderEngine) (x y : Int) (id : Nat) : Bool :=
  match wlookup e.windows id with
  | some w => w.is_visible && w.contains_point x y
  | none => false

/-- Embedding of RenderEngine::window_at_point: first hit while iterating
all layers from top to bottom. -/
def window_at_point (e : RenderEngine) (x y : Int) : Option Nat :=
  e.layers.iter_top_to_bottom.find? (e.hit_test x y)

/-- Embedding of RenderEngine::set_focus: on change, damage the old and the
new focused rects. -/
def set_focus (e : RenderEngine) (id : Option Nat) : RenderEngine :=
  if e.focused_window ≠ id then
    let d1 :=
      match e.focused_window with
      | some old_id =>
          match wlookup e.windows old_id with
          | some w => e.damage.add w.rect
          | none => e.damage
      | none => e.damage
    let d2 :=
      match id with
      | some new_id =>
          match wlookup e.windows new_id with
          | some w => d1.add w.rect
          | none => d1
      | none => d1
    { e with focused_window := id, damage := d2 }
  else e

end RenderEngine

/-! ## Protocol events and dispatch (src/server/dispatch.rs)

Port names, opcodes of the platform crate and raw byte layouts are abstracted
away; the payload arithmetic of EVENT_INPUT is kept bit-exact. -/

/-- Kinds of EVENT_INPUT events (redpowder::event::event_type). -/
inductive EventKind where
  | KEY_DOWN
  | KEY_UP
  | MOUSE_DOWN
  | MOUSE_UP
deriving Repr, DecidableEq

/-- Embedding of redpowder::event::InputEvent sent to a client. -/
structure InputEvent where
  event_type : EventKind
  param1 : Nat
  param2 : Nat
deriving Repr, DecidableEq

/-- Kinds of lifecycle events (redpowder::window::lifecycle_events). -/
inductive LifecycleKind where
  | CREATED
  | DESTROYED
  | MINIMIZED
  | RESTORED
  | FOCUSED
deriving Repr, DecidableEq

/-- Embedding of redpowder::window::WindowLifecycleEvent pushed to the
taskbar. -/
structure LifecycleEvent where
  event_type : LifecycleKind
  window_id : Nat
  title : String
deriving Repr, DecidableEq

/-- Reply WINDOW_CREATED sent on a client's reply port. -/
structure WindowCreatedResponse where
  window_id : Nat
  buffer_size : Nat
deriving Repr, DecidableEq

/-- Observable effects of the server: replies to clients, lifecycle events
to the taskbar, EVENT_INPUT messages to client windows. -/
structure EffectLog where
  replies : List WindowCreatedResponse
  lifecycle : List LifecycleEvent
  client_events : List (Nat × InputEvent)
deriving Repr, DecidableEq

def EffectLog.empty : EffectLog := ⟨[], [], []⟩

/-- Two's-complement bit pattern of an i32 value, as a natural (the effect
of `as u32` in Rust). -/
def u32_of_i32 (x : Int) : Nat := (x % (2 ^ 32 : Int)).toNat

/-- Truncating cast of an i32 value to u16 (`as u16` keeps the low 16 bits
of the two's-complement representation, with no sign handling). -/
def u16_of_i32 (x : Int) : Nat := u32_of_i32 x % 2 ^ 16

/-- Embedding of the InputEvent construction in dispatch_mouse_event:
param1 = rel_x as u16 as u32; param2 = ((rel_y as u16 as u32) << 16) |
(buttons & 0xFFFF). -/
def mouse_event (rel_x rel_y : Int) (buttons : Nat) (pressed : Bool) : InputEvent :=
  { event_type := if pressed then EventKind.MOUSE_DOWN else EventKind.MOUSE_UP
    param1 := u16_of_i32 rel_x
    param2 := (u16_of_i32 rel_y <<< 16) ||| (buttons &&& 0xFFFF) }

/-- Embedding of send_event_to_window: deliver only when the window has a
registered client port. -/
def send_event_to_window (client_ports : List Nat) (log : EffectLog)
    (window_id : Nat) (ev : InputEvent) : EffectLog :=
  if client_ports.contains window_id then
    { log with client_events := log.client_events ++ [(window_id, ev)] }
  else log

/-- Embedding of dispatch_mouse_event. -/
def dispatch_mouse_event (client_ports : List Nat) (log : EffectLog)
    (window_id : Nat) (rel_x rel_y : Int) (buttons : Nat) (pressed : Bool) : EffectLog :=
  send_event_to_window client_ports log window_id (mouse_event rel_x rel_y buttons pressed)

/-- Embedding of dispatch_key_event. -/
def dispatch_key_event (client_ports : List Nat) (log : EffectLog)
    (window_id : Nat) (key_code : Nat) (pressed : Bool) : EffectLog :=
  send_event_to_window client_ports log window_id
    { event_type := if pressed then EventKind.KEY_DOWN else EventKind.KEY_UP
      param1 := key_code
      param2 := 0 }

/-- Embedding of send_lifecycle_event: emitted only when a taskbar port is
registered. -/
def send_lifecycle_event (taskbar : Bool) (log : EffectLog)
    (kind : LifecycleKind) (window_id : Nat) (title : String) : EffectLog :=
  if taskbar then
    { log with lifecycle := log.lifecycle ++ [⟨kind, window_id, title⟩] }
  else log

/-! ## Server state (src/server/state.rs, src/server/server.rs) -/

/-- Embedding of state::DragState. -/
structure DragState where
  window_id : Option Nat
  offset_x : Int
  offset_y : Int
deriving Repr, DecidableEq

namespace DragState

def new : DragState := ⟨none, 0, 0⟩

def start (window_id : Nat) (off_x off_y : Int) : DragState :=
  ⟨some window_id, off_x, off_y⟩

def stop (d : DragState) : DragState := { d with window_id := none }

end DragState

/-- Embedding of state::ClickState. -/
structure ClickState where
  last_frame : Nat
  last_window : Option Nat
deriving Repr, DecidableEq

namespace ClickState

def new : ClickState := ⟨0, none⟩

/-- Embedding of ClickState::is_double_click: same window, strictly later
frame, within 30 frames. -/
def is_double_click (c : ClickState) (window_id : Nat) (current_frame : Nat) : Bool :=
  c.last_window == some window_id &&
  decide (current_frame > c.last_frame) &&
  decide (current_frame - c.last_frame < 30)

def register (c : ClickState) (window_id : Nat) (frame : Nat) : ClickState :=
  { c with last_window := some window_id, last_frame := frame }

def clear (c : ClickState) : ClickState := { c with last_window := none }

end ClickState

/-- Embedding of state::MouseState. -/
structure MouseState where
  x : Int
  y : Int
  prev_buttons : Nat
deriving Repr, DecidableEq

namespace MouseState

def new : MouseState := ⟨0, 0, 0⟩

def update (m : MouseState) (x y : Int) : MouseState := { m with x := x, y := y }

def save_buttons (m : MouseState) (buttons : Nat) : MouseState :=
  { m with prev_buttons := buttons }

/-- Embedding of MouseState::left_just_pressed. -/
def left_just_pressed (m : MouseState) (current_buttons : Nat) : Bool :=
  (current_buttons &&& 1 != 0) && !(m.prev_buttons &&& 1 != 0)

/-- Embedding of MouseState::left_just_released. -/
def left_just_released (m : MouseState) (current_buttons : Nat) : Bool :=
  !(current_buttons &&& 1 != 0) && (m.prev_buttons &&& 1 != 0)

/-- Embedding of MouseState::left_pressed. -/
def left_pressed (current_buttons : Nat) : Bool :=
  current_buttons &&& 1 != 0

end MouseState

/-- Embedding of server::Server: the compositor state threaded through the
message loop, extended with the log of observable effects. -/
structure Server where
  render_engine : RenderEngine
  client_ports : List Nat
  focused_window : Option Nat
  mouse : MouseState
  drag : DragState
  click : ClickState
  taskbar_port : Bool
  frame_count : Nat
  log : EffectLog
deriving Repr, DecidableEq

/-- Embedding of Server::new (mouse starts at the platform default, no
focus, no drag, empty click state). -/
def Server.init (screen : Size) : Server :=
  { render_engine := RenderEngine.new screen
    client_ports := []
    focused_window := none
    mouse := MouseState.new
    drag := DragState.new
    click := ClickState.new
    taskbar_port := false
    frame_count := 0
    log := EffectLog.empty }

/-! ## Messages and platform outcomes (src/server/handlers.rs) -/

/-- Decoded CREATE_WINDOW request (title and reply-port decoding collapsed
to their results). -/
structure CreateWindowRequest where
  width : Nat
  height : Nat
  x : Nat
  y : Nat
  flags : WindowFlags
  title : String
  reply_port_valid : Bool
deriving Repr, DecidableEq

/-- Decoded INPUT_UPDATE request (protocol::InputUpdateRequest). -/
structure InputUpdateRequest where
  event_type : Nat
  key_code : Nat
  key_pressed : Nat
  mouse_x : Int
  mouse_y : Int
  mouse_buttons : Nat
deriving Repr, DecidableEq

/-- The decoded inbox messages, one per opcode handled by the server. -/
inductive Msg where
  | CREATE_WINDOW (req : CreateWindowRequest)
  | COMMIT_BUFFER (window_id : Nat)
  | DESTROY_WINDOW (window_id : Nat)
  | MINIMIZE_WINDOW (window_id : Nat)
  | RESTORE_WINDOW (window_id : Nat)
  | REGISTER_TASKBAR
  | INPUT_UPDATE (req : InputUpdateRequest)
deriving Repr, DecidableEq

/-- Error taxonomy relevant to the handlers: the shared-memory allocation
failure surfaced by SharedMemory::create. -/
inductive SysErr where
  | shm_fail
deriving Repr, DecidableEq

/-- Platform oracle: whether shm allocation succeeds, and the outcome of
each Port::connect attempt (by attempt index). -/
structure Platform where
  shm_ok : Bool
  connect_ok : Nat → Bool

/-- Two's-complement reinterpretation of a u32 as i32 (`as i32` in Rust). -/
def i32_of_u32 (x : Nat) : Int :=
  if x % 2 ^ 32 < 2 ^ 31 then (x % 2 ^ 32 : Nat) else (x % 2 ^ 32 : Nat) - 2 ^ 32

/-- Embedding of handlers::determine_layer. -/
def determine_layer (flags : WindowFlags) (y : Nat) : LayerType :=
  if flags.overlay then LayerType.Overlay
  else if flags.background then LayerType.Background
  else if flags.borderless && y == 0 then LayerType.Panel
  else LayerType.Normal

/-- Embedding of handlers::connect_and_respond: up to 10 connect attempts;
on the first success the WINDOW_CREATED reply is sent and the client port
is stored; when all attempts fail, only a log line is produced. -/
def connect_and_respond (plat : Platform) (client_ports : List Nat) (log : EffectLog)
    (window_id : Nat) (buffer_size : Nat) : List Nat × EffectLog :=
  match (List.range 10).find? (fun i => plat.connect_ok i) with
  | some _ =>
      (client_ports ++ [window_id],
       { log with replies := log.replies ++ [⟨window_id, buffer_size⟩] })
  | none => (client_ports, log)

/-- Embedding of handlers::handle_create_window: allocate shm (failing the
request on platform error), choose the layer from the flags, create the
window, position it, apply the flags, connect and respond, then notify the
taskbar. -/
def handle_create_window (plat : Platform) (e : RenderEngine)
    (client_ports : List Nat) (taskbar : Bool) (log : EffectLog)
    (req : CreateWindowRequest) :
    Except SysErr (RenderEngine × List Nat × EffectLog × Nat × LayerType) :=
  if !plat.shm_ok then Except.error SysErr.shm_fail
  else
    let buffer_size := req.width * req.height * 4
    let size : Size := ⟨req.width, req.height⟩
    let layer := determine_layer req.flags req.y
    let (window_id, e1) := e.create_window size layer req.title
    let e2 := e1.move_window window_id (i32_of_u32 req.x) (i32_of_u32 req.y)
    let e3 := { e2 with windows :=
                  wupdate e2.windows window_id (fun win => { win with flags := req.flags }) }
    let (ports2, log2) :=
      if req.reply_port_valid then
        connect_and_respond plat client_ports log window_id buffer_size
      else (client_ports, log)
    let log3 := send_lifecycle_event taskbar log2 LifecycleKind.CREATED window_id req.title
    Except.ok (e3, ports2, log3, window_id, layer)

/-- Embedding of handlers::handle_destroy_window. -/
def handle_destroy_window (s : Server) (window_id : Nat) : Server :=
  { s with client_ports := s.client_ports.filter (fun c => c ≠ window_id)
           log := send_lifecycle_event s.taskbar_port s.log LifecycleKind.DESTROYED window_id ""
           render_engine := (s.render_engine.destroy_window window_id).full_screen_damage }

/-- Embedding of handlers::handle_minimize_window: when the window exists,
minimize it, notify the taskbar, mark full-screen damage. Focus is not
touched. -/
def handle_minimize_window (s : Server) (window_id : Nat) : Server :=
  match s.render_engine.get_window window_id with
  | none => s
  | some w =>
      { s with render_engine :=
                 { s.render_engine with
                     windows := wupdate s.render_engine.windows window_id Window.minimize
                 }.full_screen_damage
               log := send_lifecycle_event s.taskbar_port s.log
                        LifecycleKind.MINIMIZED window_id w.title }

/-- Embedding of handlers::handle_restore_window: when the window exists,
restore it, notify the taskbar, mark full-screen damage, raise it, and
report the id back to the caller. -/
def handle_restore_window (s : Server) (window_id : Nat) : Server × Option Nat :=
  match s.render_engine.get_window window_id with
  | none => (s, none)
  | some w =>
      let e1 := { s.render_engine with
                    windows := wupdate s.render_engine.windows window_id Window.restore }
      let e2 := e1.full_screen_damage.bring_to_front window_id
      ({ s with render_engine := e2
                log := send_lifecycle_event s.taskbar_port s.log
                         LifecycleKind.RESTORED window_id w.title },
       some window_id)

/-! ## Input state machine (src/server/server.rs) -/

/-- Embedding of Server::get_relative_coords. -/
def get_relative_coords (s : Server) (window_id : Nat) (x y : Int) : Int × Int :=
  match s.render_engine.get_window window_id with
  | some w => (x - w.position.x, y - w.position.y)
  | none => (x, y)

/-- Embedding of Server::handle_titlebar_click: close button, minimize
button, double-click maximize toggle, or drag start within the 24-pixel
title bar of a decorated non-Background window. -/
def handle_titlebar_click (s : Server) (window_id : Nat) (x y : Int) : Server :=
  match s.render_engine.get_window window_id with
  | none => s
  | some win =>
      let rect := win.rect
      if !win.has_decorations || win.layer == LayerType.Background then s
      else
        let rel_x := x - rect.x
        let rel_y := y - rect.y
        if 0 ≤ rel_y ∧ rel_y < 24 then
          let w : Int := i32_of_u32 rect.width
          let btn_size : Int := 20
          let close_x := w - btn_size - 2
          let min_x := w - btn_size * 2 - 6
          if close_x ≤ rel_x ∧ rel_x < close_x + btn_size then
            let s1 :=
              if s.focused_window == some window_id then
                { s with focused_window := none
                         render_engine := s.render_engine.set_focus none }
              else s
            handle_destroy_window s1 window_id
          else if min_x ≤ rel_x ∧ rel_x < min_x + btn_size then
            handle_minimize_window s window_id
          else if s.click.is_double_click window_id s.frame_count then
            let screen_size := s.render_engine.size
            let s1 :=
              match s.render_engine.get_window window_id with
              | some win2 =>
                  let win3 :=
                    if win2.state == WindowState.Maximized then win2.restore
                    else win2.maximize screen_size
                  { s with render_engine :=
                      { s.render_engine with
                          windows := wupdate s.render_engine.windows window_id
                                       (fun _ => win3) }.full_screen_damage }
              | none => s
            { s1 with click := s1.click.clear }
          else
            { s with drag := DragState.start window_id rel_x rel_y
                     click := s.click.register window_id s.frame_count }
        else s

/-- Embedding of Server::handle_mouse_click: hit-test, focus change with
FOCUSED lifecycle event and raise of Normal-layer windows, MOUSE_DOWN
dispatch, then title-bar handling. -/
def handle_mouse_click (s : Server) (x y : Int) (buttons : Nat) : Server :=
  match s.render_engine.window_at_point x y with
  | none => s
  | some window_id =>
      let s1 :=
        if s.focused_window != some window_id then
          let sa := { s with focused_window := some window_id
                             render_engine := s.render_engine.set_focus (some window_id) }
          let sb :=
            match sa.render_engine.get_window window_id with
            | some w =>
                { sa with log := send_lifecycle_event sa.taskbar_port sa.log
                            LifecycleKind.FOCUSED window_id w.title }
            | none => sa
          match sb.render_engine.get_window window_id with
          | some w =>
              if w.layer == LayerType.Normal then
                { sb with render_engine := sb.render_engine.bring_to_front window_id }
              else sb
          | none => sb
        else s
      let rel := get_relative_coords s1 window_id x y
      let s2 := { s1 with log := dispatch_mouse_event s1.client_ports s1.log
                            window_id rel.1 rel.2 buttons true }
      handle_titlebar_click s2 window_id x y

/-- Embedding of Server::process_mouse_input: click on the press edge, drag
while the primary button is held (position := mouse - drag_offset plus
full-screen damage, or stop when released), MOUSE_UP on the release edge,
then save the button mask. -/
def process_mouse_input (s : Server) (buttons : Nat) : Server :=
  let x := s.mouse.x
  let y := s.mouse.y
  let s1 := if s.mouse.left_just_pressed buttons then handle_mouse_click s x y buttons else s
  let s2 :=
    match s1.drag.window_id with
    | some win_id =>
        if MouseState.left_pressed buttons then
          let new_x := x - s1.drag.offset_x
          let new_y := y - s1.drag.offset_y
          { s1 with render_engine :=
              (s1.render_engine.move_window win_id new_x new_y).full_screen_damage }
        else { s1 with drag := s1.drag.stop }
    | none => s1
  let s3 :=
    if s2.mouse.left_just_released buttons then
      let s3a :=
        match s2.focused_window with
        | some focused =>
            let rel := get_relative_coords s2 focused x y
            { s2 with log := dispatch_mouse_event s2.client_ports s2.log
                        focused rel.1 rel.2 buttons false }
        | none => s2
      { s3a with drag := s3a.drag.stop }
    else s2
  { s3 with mouse := s3.mouse.save_buttons buttons }

/-- Embedding of Server::handle_input_update: keyboard events go to the
focused window; mouse events update the cursor and run the mouse state
machine. -/
def handle_input_update (s : Server) (req : InputUpdateRequest) : Server :=
  let s1 :=
    if req.event_type == 1 then
      match s.focused_window with
      | some target_id =>
          { s with log := dispatch_key_event s.client_ports s.log
                     target_id req.key_code (req.key_pressed == 1) }
      | none => s
    else s
  if req.event_type == 2 then
    let s2 := { s1 with mouse := s1.mouse.update req.mouse_x req.mouse_y }
    process_mouse_input s2 req.mouse_buttons
  else s1

/-- Embedding of Server::handle_message: opcode dispatch. The returned
option carries an error escaping the handler (propagated by the ? operator
in the Rust source); the state reflects all mutations made before the error
point. -/
def handle_message (plat : Platform) (s : Server) : Msg → Server × Option SysErr
  | Msg.CREATE_WINDOW req =>
      match handle_create_window plat s.render_engine s.client_ports s.taskbar_port s.log req with
      | Except.error err => (s, some err)
      | Except.ok (e, ports, log, window_id, layer) =>
          let s1 := { s with render_engine := e, client_ports := ports, log := log }
          if layer != LayerType.Background then
            ({ s1 with focused_window := some window_id
                       render_engine := s1.render_engine.set_focus (some window_id) }, none)
          else (s1, none)
  | Msg.COMMIT_BUFFER window_id =>
      ({ s with render_engine :=
           (s.render_engine.mark_window_has_content window_id).mark_damage window_id }, none)
  | Msg.DESTROY_WINDOW window_id =>
      let s1 :=
        if s.focused_window == some window_id then
          { s with focused_window := none
                   render_engine := s.render_engine.set_focus none }
        else s
      (handle_destroy_window s1 window_id, none)
  | Msg.MINIMIZE_WINDOW window_id =>
      (handle_minimize_window s window_id, none)
  | Msg.RESTORE_WINDOW window_id =>
      match handle_restore_window s window_id with
      | (s1, some window_id2) =>
          ({ s1 with focused_window := some window_id2
                     render_engine := s1.render_engine.set_focus (some window_id2) }, none)
      | (s1, none) => (s1, none)
  | Msg.REGISTER_TASKBAR =>
      ({ s with taskbar_port := true }, none)
  | Msg.INPUT_UPDATE req =>
      (handle_input_update s req, none)

/-- Embedding of the message-draining phase of Server::run: process messages
in order; an error returned by a handler short-circuits out of the loop
through the ? operator. -/
def process_messages (plat : Platform) (s : Server) : List Msg → Server × Option SysErr
  | [] => (s, none)
  | m :: ms =>
      match handle_message plat s m with
      | (s1, none) => process_messages plat s1 ms
      | (s1, some err) => (s1, some err)

/-! ## Blitter (src/render/blitter.rs)

Pixel buffers are lists of 32-bit words; `as usize` casts are modelled as the
64-bit two's-complement reinterpretation. -/

/-- Reinterpretation of an i32/i64 value as usize (`as usize` in Rust):
the low 64 bits of the two's-complement representation. -/
def usize_of_i32 (x : Int) : Nat := (x % (2 ^ 64 : Int)).toNat

/-- Embedding of blitter::blend_over (Porter-Duff source over, opaque
result). -/
def blend_over (src dst : Nat) : Nat :=
  let sa := (src >>> 24) &&& 0xFF
  if sa == 0xFF then src
  else if sa == 0 then dst
  else
    let sr := (src >>> 16) &&& 0xFF
    let sg := (src >>> 8) &&& 0xFF
    let sb := src &&& 0xFF
    let dr := (dst >>> 16) &&& 0xFF
    let dg := (dst >>> 8) &&& 0xFF
    let db := dst &&& 0xFF
    let inv_sa := 255 - sa
    let out_r := (sr * sa + dr * inv_sa) / 255
    let out_g := (sg * sa + dg * inv_sa) / 255
    let out_b := (sb * sa + db * inv_sa) / 255
    0xFF000000 ||| (out_r <<< 16) ||| (out_g <<< 8) ||| out_b

/-- Write a segment over a buffer at a given start position (the
copy_from_slice of one scanline). -/
def copy_into (buf : List Nat) (start : Nat) (seg : List Nat) : List Nat :=
  buf.take start ++ seg ++ buf.drop (start + seg.length)

/-- One scanline of Blitter::blit_opaque: bounds-checked row copy with the
clamping arithmetic of the source. -/
def blit_opaque_row (src : List Nat) (src_size : Size) (src_rect : Rect)
    (dst_point : Point) (clipped : Rect) (dst_stride : Nat) (buf : List Nat)
    (y : Nat) : List Nat :=
  let src_stride := src_size.width
  let offset_x := usize_of_i32 (clipped.x - dst_point.x)
  let offset_y := usize_of_i32 (clipped.y - dst_point.y)
  let src_y := usize_of_i32 src_rect.y + offset_y + y
  let dst_y := usize_of_i32 clipped.y + y
  if src_y ≥ src_size.height then buf
  else
    let src_start := src_y * src_stride + usize_of_i32 src_rect.x + offset_x
    let dst_start := dst_y * dst_stride + usize_of_i32 clipped.x
    let copy_width := clipped.width
    let src_end := min (src_start + copy_width) src.length
    let dst_end := min (dst_start + copy_width) buf.length
    let actual_width := min (src_end - src_start) (dst_end - dst_start)
    if actual_width > 0 ∧ dst_start < buf.length ∧ src_start < src.length then
      copy_into buf dst_start ((src.drop src_start).take actual_width)
    else buf

/-- Run a row function on rows 0, 1, ..., n-1 in order. -/
def iter_rows (row : List Nat → Nat → List Nat) : Nat → List Nat → List Nat
  | 0, buf => buf
  | n + 1, buf => row (iter_rows row n buf) n

/-- Embedding of Blitter::blit_opaque: clip the destination rect to the
destination bounds, then copy one clamped scanline per clipped row. -/
def blit_opaque (dst : List Nat) (dst_size : Size) (src : List Nat) (src_size : Size)
    (src_rect : Rect) (dst_point : Point) : List Nat :=
  let dst_rect : Rect := ⟨dst_point.x, dst_point.y, src_rect.width, src_rect.height⟩
  let dst_bounds : Rect := ⟨0, 0, dst_size.width, dst_size.height⟩
  match dst_rect.intersection dst_bounds with
  | none => dst
  | some clipped =>
      iter_rows (blit_opaque_row src src_size src_rect dst_point clipped dst_size.width)
        clipped.height dst

/-- Variant of blit_opaque_row where each slice access carries its bounds
obligation: None signals an out-of-bounds slice index. -/
def blit_opaque_row_checked (src : List Nat) (src_size : Size) (src_rect : Rect)
    (dst_point : Point) (clipped : Rect) (dst_stride : Nat) (buf : List Nat)
    (y : Nat) : Option (List Nat) :=
  let src_stride := src_size.width
  let offset_x := usize_of_i32 (clipped.x - dst_point.x)
  let offset_y := usize_of_i32 (clipped.y - dst_point.y)
  let src_y := usize_of_i32 src_rect.y + offset_y + y
  let dst_y := usize_of_i32 clipped.y + y
  if src_y ≥ src_size.height then some buf
  else
    let src_start := src_y * src_stride + usize_of_i32 src_rect.x + offset_x
    let dst_start := dst_y * dst_stride + usize_of_i32 clipped.x
    let copy_width := clipped.width
    let src_end := min (src_start + copy_width) src.length
    let dst_end := min (dst_start + copy_width) buf.length
    let actual_width := min (src_end - src_start) (dst_end - dst_start)
    if actual_width > 0 ∧ dst_start < buf.length ∧ src_start < src.length then
      if src_start + actual_width ≤ src.length ∧ dst_start + actual_width ≤ buf.length then
        some (copy_into buf dst_start ((src.drop src_start).take actual_width))
      else none
    else some buf

/-- Run a checked row function on rows 0, ..., n-1, failing when any row
fails. -/
def iter_rows_checked (row : List Nat → Nat → Option (List Nat)) :
    Nat → List Nat → Option (List Nat)
  | 0, buf => some buf
  | n + 1, buf =>
      match iter_rows_checked row n buf with
      | some buf2 => row buf2 n
      | none => none

/-- Bounds-checked variant of blit_opaque. -/
def blit_opaque_checked (dst : List Nat) (dst_size : Size) (src : List Nat)
    (src_size : Size) (src_rect : Rect) (dst_point : Point) : Option (List Nat) :=
  let dst_rect : Rect := ⟨dst_point.x, dst_point.y, src_rect.width, src_rect.height⟩
  let dst_bounds : Rect := ⟨0, 0, dst_size.width, dst_size.height⟩
  match dst_rect.intersection dst_bounds with
  | none => some dst
  | some clipped =>
      iter_rows_checked
        (blit_opaque_row_checked src src_size src_rect dst_point clipped dst_size.width)
        clipped.height dst

/-- One pixel of Blitter::blit_alpha at source-rect offsets (x, y): skip
when either coordinate or index is out of bounds, then skip alpha 0, store
alpha 0xFF, and blend otherwise. -/
def blit_alpha_pixel (src : List Nat) (src_size dst_size : Size) (src_rect : Rect)
    (dst_point : Point) (y : Nat) (buf : List Nat) (x : Nat) : List Nat :=
  let src_stride := src_size.width
  let dst_stride := dst_size.width
  let src_y := usize_of_i32 src_rect.y + y
  let dst_y := usize_of_i32 dst_point.y + y
  let src_x := usize_of_i32 src_rect.x + x
  let dst_x := usize_of_i32 dst_point.x + x
  if src_x ≥ src_size.width ∨ dst_x ≥ dst_size.width then buf
  else
    let src_idx := src_y * src_stride + src_x
    let dst_idx := dst_y * dst_stride + dst_x
    if src_idx ≥ src.length ∨ dst_idx ≥ buf.length then buf
    else
      let src_pixel := src.getD src_idx 0
      let alpha := src_pixel >>> 24
      if alpha == 0xFF then buf.set dst_idx src_pixel
      else if alpha > 0 then buf.set dst_idx (blend_over src_pixel (buf.getD dst_idx 0))
      else buf

/-- One scanline of Blitter::blit_alpha: skip the row when the source or
destination row is out of bounds, else run all pixels of the source rect
width. -/
def blit_alpha_row (src : List Nat) (src_size dst_size : Size) (src_rect : Rect)
    (dst_point : Point) (buf : List Nat) (y : Nat) : List Nat :=
  let src_y := usize_of_i32 src_rect.y + y
  let dst_y := usize_of_i32 dst_point.y + y
  if src_y ≥ src_size.height ∨ dst_y ≥ dst_size.height then buf
  else
    iter_rows (fun b x => blit_alpha_pixel src src_size dst_size src_rect dst_point y b x)
      src_rect.width buf

/-- Embedding of Blitter::blit_alpha: per-pixel clipped source-over copy of
the source rect to the destination point. -/
def blit_alpha (dst : List Nat) (dst_size : Size) (src : List Nat) (src_size : Size)
    (src_rect : Rect) (dst_point : Point) : List Nat :=
  iter_rows (blit_alpha_row src src_size dst_size src_rect dst_point)
    src_rect.height dst

/-- Variant of blit_alpha_pixel where each element access carries its bounds
obligation: None signals an out-of-bounds buffer index. -/
def blit_alpha_pixel_checked (src : List Nat) (src_size dst_size : Size) (src_rect : Rect)
    (dst_point : Point) (y : Nat) (buf : List Nat) (x : Nat) : Option (List Nat) :=
  let src_stride := src_size.width
  let dst_stride := dst_size.width
  let src_y := usize_of_i32 src_rect.y + y
  let dst_y := usize_of_i32 dst_point.y + y
  let src_x := usize_of_i32 src_rect.x + x
  let dst_x := usize_of_i32 dst_point.x + x
  if src_x ≥ src_size.width ∨ dst_x ≥ dst_size.width then some buf
  else
    let src_idx := src_y * src_stride + src_x
    let dst_idx := dst_y * dst_stride + dst_x
    if src_idx ≥ src.length ∨ dst_idx ≥ buf.length then some buf
    else
      if src_idx < src.length ∧ dst_idx < buf.length then
        let src_pixel := src.getD src_idx 0
        let alpha := src_pixel >>> 24
        if alpha == 0xFF then some (buf.set dst_idx src_pixel)
        else if alpha > 0 then
          some (buf.set dst_idx (blend_over src_pixel (buf.getD dst_idx 0)))
        else some buf
      else none

/-- Bounds-checked variant of blit_alpha. -/
def blit_alpha_checked (dst : List Nat) (dst_size : Size) (src : List Nat)
    (src_size : Size) (src_rect : Rect) (dst_point : Point) : Option (List Nat) :=
  iter_rows_checked
    (fun buf y =>
      let src_y := usize_of_i32 src_rect.y + y
      let dst_y := usize_of_i32 dst_point.y + y
      if src_y ≥ src_size.height ∨ dst_y ≥ dst_size.height then some buf
      else
        iter_rows_checked
          (fun b x => blit_alpha_pixel_checked src src_size dst_size src_rect dst_point y b x)
          src_rect.width buf)
    src_rect.height dst

/-! ## Reference behavior of the blit entry points, written from the spec

The following definitions state the specified behavior (clip both source
and destination; touch exactly the intersection) to compare against the
embedded code. -/

/-- The intersection area of a blit per the spec: the source rect clipped to
the source bounds, placed at the destination point, clipped to the
destination bounds. -/
def inter_area (dst_size src_size : Size) (src_rect : Rect) (dst_point : Point) :
    Option Rect :=
  (src_rect.intersection (Rect.from_size src_size)).bind (fun sc =>
    (sc.offset (dst_point.x - src_rect.x) (dst_point.y - src_rect.y)).intersection
      (Rect.from_size dst_size))

/-- The per-pixel effect of the alpha blit (skip alpha 0, store alpha 0xFF,
blend otherwise). -/
def alpha_apply (sp dp : Nat) : Nat :=
  let alpha := sp >>> 24
  if alpha == 0xFF then sp
  else if alpha > 0 then blend_over sp dp
  else dp

/-- Specified alpha blit: every destination pixel inside the intersection
area receives the source-over combination with its source pixel; every
other pixel is untouched. -/
def blit_alpha_spec (dst : List Nat) (dst_size : Size) (src : List Nat) (src_size : Size)
    (src_rect : Rect) (dst_point : Point) : List Nat :=
  dst.mapIdx (fun j d =>
    if 0 < dst_size.width then
      let dx : Int := (j % dst_size.width : Nat)
      let dy : Int := (j / dst_size.width : Nat)
      match inter_area dst_size src_size src_rect dst_point with
      | some ir =>
          if ir.contains_point ⟨dx, dy⟩ then
            let sx := (src_rect.x + (dx - dst_point.x)).toNat
            let sy := (src_rect.y + (dy - dst_point.y)).toNat
            alpha_apply (src.getD (sy * src_size.width + sx) 0) d
          else d
      | none => d
    else d)

/-- Specified opaque blit: every destination pixel inside the intersection
area receives its source pixel; every other pixel is untouched. -/
def blit_opaque_spec (dst : List Nat) (dst_size : Size) (src : List Nat) (src_size : Size)
    (src_rect : Rect) (dst_point : Point) : List Nat :=
  dst.mapIdx (fun j d =>
    if 0 < dst_size.width then
      let dx : Int := (j % dst_size.width : Nat)
      let dy : Int := (j / dst_size.width : Nat)
      match inter_area dst_size src_size src_rect dst_point with
      | some ir =>
          if ir.contains_point ⟨dx, dy⟩ then
            let sx := (src_rect.x + (dx - dst_point.x)).toNat
            let sy := (src_rect.y + (dy - dst_point.y)).toNat
            src.getD (sy * src_size.width + sx) 0
          else d
      | none => d
    else d)

/-! ## Concrete scenario data used by counterexamples and witnesses -/

/-- Platform whose reply-port connect fails on every attempt. -/
def plat_all_fail : Platform := ⟨true, fun _ => false⟩

/-- Platform where every platform call succeeds. -/
def plat_all_ok : Platform := ⟨true, fun _ => true⟩

/-- Platform whose shared-memory allocation fails. -/
def plat_no_shm : Platform := ⟨false, fun _ => true⟩

/-- A 1024x768 display. -/
def scr : Size := ⟨1024, 768⟩

/-- CREATE_WINDOW request with the BACKGROUND flag set. -/
def bg_req : CreateWindowRequest :=
  ⟨10, 10, 0, 0, ⟨false, false, false, false, true⟩, "bg", false⟩

/-- Plain CREATE_WINDOW request for a Normal-layer window. -/
def norm_req : CreateWindowRequest :=
  ⟨10, 10, 5, 5, WindowFlags.NONE, "a", true⟩

/-- The title-bar drag scenario: a decorated 300x200 window at (100, 100),
committed, then mouse (110,108,btn=1), (140,112,btn=1), (160,115,btn=0). -/
def drag_msgs : List Msg :=
  [Msg.CREATE_WINDOW ⟨300, 200, 100, 100, WindowFlags.NONE, "w", false⟩,
   Msg.COMMIT_BUFFER 1,
   Msg.INPUT_UPDATE ⟨2, 0, 0, 110, 108, 1⟩,
   Msg.INPUT_UPDATE ⟨2, 0, 0, 140, 112, 1⟩,
   Msg.INPUT_UPDATE ⟨2, 0, 0, 160, 115, 0⟩]

/-- Server state with an active drag of window 1 (offset (10, 8)), the
primary button held, mouse at (140, 112): the state entering the second
drag step of the title-bar drag scenario. -/
def drag_state_mid : Server :=
  { (process_messages plat_all_ok (Server.init scr) (drag_msgs.take 3)).1 with
      mouse := ⟨140, 112, 1⟩ }

/-- A scene whose only window sits at (-5, -5) with size 10x10, committed:
reachable via create_window, move_window, mark_window_has_content. -/
def engine_neg : RenderEngine :=
  let e := RenderEngine.new scr
  let r := e.create_window ⟨10, 10⟩ LayerType.Normal "neg"
  let e2 := r.2.move_window r.1 (-5) (-5)
  e2.mark_window_has_content r.1

/-- Fresh damage tracker for a 100x100 screen (full-damage flag still set,
as DamageTracker::new leaves it). -/
def tracker100 : DamageTracker := DamageTracker.new.set_size 100 100

/-- Seventeen pairwise disjoint 5x5 rects along the top edge of the
screen. -/
def disjoint17 : List Rect := (List.range 17).map (fun i => ⟨(5 * i : Int), 0, 5, 5⟩)

/-- A tracker in the post-clear state holding sixteen disjoint regions. -/
def tracker16 : DamageTracker := (disjoint17.take 16).foldl DamageTracker.add tracker100.clear

/-- Destination buffer of the opaque-blit counterexample: 4x4, all zero. -/
def cex_dst : List Nat := List.replicate 16 0

/-- Source buffer of the opaque-blit counterexample: 2x2 with pixels
1, 2, 3, 4. -/
def cex_src : List Nat := [1, 2, 3, 4]

/-- Source rect of the opaque-blit counterexample: x = 1, width 2, so one
column lies beyond the right edge of the 2x2 source. -/
def cex_rect : Rect := ⟨1, 0, 2, 2⟩

/-- The engine produced by the CREATE_WINDOW handler (create at the decided
layer, position at the request coordinates, apply the flags); factored out
of handle_create_window for compact reasoning. -/
def create_engine (e0 : RenderEngine) (req : CreateWindowRequest) : RenderEngine :=
  let size : Size := ⟨req.width, req.height⟩
  let layer := determine_layer req.flags req.y
  let r := e0.create_window size layer req.title
  let e2 := r.2.move_window r.1 (i32_of_u32 req.x) (i32_of_u32 req.y)
  { e2 with windows := wupdate e2.windows r.1 (fun win => { win with flags := req.flags }) }

/-- The client-port list and effect log produced by the CREATE_WINDOW
handler. -/
def create_ports_log (plat : Platform) (ports0 : List Nat) (log0 : EffectLog)
    (tb : Bool) (req : CreateWindowRequest) (wid : Nat) : List Nat × EffectLog :=
  let pl :=
    if req.reply_port_valid then
      connect_and_respond plat ports0 log0 wid (req.width * req.height * 4)
    else (ports0, log0)
  (pl.1, send_lifecycle_event tb pl.2 LifecycleKind.CREATED wid req.title)

/-- The window stored by the CREATE_WINDOW handler: freshly created at the
decided layer, moved to the request position, with the request flags. -/
def created_window (e0 : RenderEngine) (req : CreateWindowRequest) : Window :=
  { ({ Window.new e0.next_window_id ⟨req.width, req.height⟩ with
        layer := determine_layer req.flags req.y
        title := req.title }).move_to (i32_of_u32 req.x) (i32_of_u32 req.y) with
      flags := req.flags }

/-- The initial server with a registered taskbar port. -/
def server_tb : Server := { Server.init scr with taskbar_port := true }

/-- The focused window, when it exists in the engine, never sits in the
Background layer. -/
def focus_not_background (s : Server) : Prop :=
  ∀ id w, s.focused_window = some id →
    s.render_engine.get_window id = some w → w.layer ≠ LayerType.Background

/-- The focused id, if any, was allocated before the current id counter. -/
def focus_id_bound (s : Server) : Prop :=
  ∀ id, s.focused_window = some id → id < s.render_engine.next_window_id

/-! ## General lemmas -/

/-- A find? result is the first list element satisfying the predicate. -/
theorem find?_eq_some_first {α : Type} (p : α → Bool) :
    ∀ (l : List α) (a : α),
      l.find? p = some a ↔
        ∃ l1 l2, l = l1 ++ a :: l2 ∧ p a = true ∧ ∀ b ∈ l1, p b = false := by
  intro l
  induction l with
  | nil => intro a; simp
  | cons h t ih =>
      intro a
      by_cases hp : p h = true
      · rw [List.find?_cons_of_pos _ hp]
        constructor
        · intro heq
          cases heq
          exact ⟨[], t, rfl, hp, by simp⟩
        · rintro ⟨l1, l2, heq, hpa, hall⟩
          cases l1 with
          | nil =>
              simp only [List.nil_append, List.cons.injEq] at heq
              rw [heq.1]
          | cons b l1 =>
              simp only [List.cons_append, List.cons.injEq] at heq
              have : p h = false := heq.1 ▸ hall b (by simp)
              rw [this] at hp
              cases hp
      · rw [List.find?_cons_of_neg _ hp]
        rw [ih a]
        constructor
        · rintro ⟨l1, l2, heq, hpa, hall⟩
          refine ⟨h :: l1, l2, by simp [heq], hpa, ?_⟩
          intro b hb
          rcases List.mem_cons.mp hb with hb | hb
          · subst hb
            exact Bool.eq_false_iff.mpr hp
          · exact hall b hb
        · rintro ⟨l1, l2, heq, hpa, hall⟩
          cases l1 with
          | nil =>
              simp only [List.nil_append, List.cons.injEq] at heq
              rw [heq.1] at hp
              exact absurd hpa hp
          | cons b l1 =>
              simp only [List.cons_append, List.cons.injEq] at heq
              exact ⟨l1, l2, heq.2, hpa, fun c hc => hall c (by simp [hc])⟩

/-- Lookup over a cons cell compares the head key first. -/
theorem wlookup_cons (q : Nat × Window) (t : List (Nat × Window)) (id : Nat) :
    wlookup (q :: t) id = if q.1 == id then some q.2 else wlookup t id := by
  unfold wlookup
  rw [List.find?_cons]
  cases hq : (q.1 == id) <;> simp [hq]

/-- Looking up the key just inserted returns the inserted window. -/
theorem wlookup_winsert_self (ws : List (Nat × Window)) (id : Nat) (w : Window) :
    wlookup (winsert ws id w) id = some w := by
  induction ws with
  | nil => simp [winsert, wlookup_cons]
  | cons q t ih =>
      unfold winsert
      by_cases hq : q.1 == id
      · simp [hq, wlookup_cons]
      · simp only [hq]
        rw [if_neg (by simp_all), wlookup_cons, if_neg hq]
        exact ih

/-- Looking up a different key after insert is unchanged. -/
theorem wlookup_winsert_ne (ws : List (Nat × Window)) (id id2 : Nat) (w : Window)
    (h : id2 ≠ id) : wlookup (winsert ws id w) id2 = wlookup ws id2 := by
  have hids : (id == id2) = false := by
    simp only [beq_eq_false_iff_ne, ne_eq]
    exact fun hc => h hc.symm
  induction ws with
  | nil => simp [winsert, wlookup_cons, hids, wlookup]
  | cons q t ih =>
      unfold winsert
      by_cases hq : q.1 == id
      · rw [if_pos (by simp_all), wlookup_cons, wlookup_cons]
        have hq2 : (q.1 == id2) = false := by
          simp only [beq_iff_eq] at hq
          simp only [beq_eq_false_iff_ne, ne_eq, hq]
          exact fun hc => h hc.symm
        simp [hids, hq2]
      · rw [if_neg (by simp_all), wlookup_cons, wlookup_cons]
        by_cases hq2 : q.1 == id2
        · simp [hq2]
        · simp only [hq2, if_false]
          exact ih

/-- Updating a key maps its lookup result. -/
theorem wlookup_wupdate_self (ws : List (Nat × Window)) (id : Nat) (f : Window → Window) :
    wlookup (wupdate ws id f) id = (wlookup ws id).map f := by
  induction ws with
  | nil => simp [wlookup, wupdate]
  | cons q t ih =>
      unfold wupdate
      rw [List.map_cons]
      by_cases hq : q.1 == id
      · rw [if_pos hq, wlookup_cons, wlookup_cons, if_pos hq, if_pos hq]
        rfl
      · rw [if_neg hq, wlookup_cons, wlookup_cons, if_neg hq, if_neg hq]
        exact ih

/-- Updating a different key leaves a lookup unchanged. -/
theorem wlookup_wupdate_ne (ws : List (Nat × Window)) (id id2 : Nat) (f : Window → Window)
    (h : id2 ≠ id) : wlookup (wupdate ws id f) id2 = wlookup ws id2 := by
  induction ws with
  | nil => simp [wlookup, wupdate]
  | cons q t ih =>
      unfold wupdate
      rw [List.map_cons]
      by_cases hq : q.1 == id
      · have hq2 : (q.1 == id2) = false := by
          simp only [beq_iff_eq] at hq
          simp only [beq_eq_false_iff_ne, ne_eq, hq]
          exact fun hc => h hc.symm
        rw [if_pos hq, wlookup_cons, wlookup_cons, if_neg (by simp [hq2]), if_neg (by simp [hq2])]
        exact ih
      · rw [if_neg hq, wlookup_cons, wlookup_cons]
        by_cases hq2 : q.1 == id2
        · simp [hq2]
        · simp only [hq2, if_false]
          exact ih

/-! ## Claim C5: minimize then restore round trip -/

/-- C5: for every window whose state is not Minimized, minimize followed by
restore leaves position and size at their pre-minimize values and the state
as Normal. -/
theorem claim_C5 (w : Window) (h : w.state ≠ WindowState.Minimized) :
    (w.minimize.restore).position = w.position ∧
    (w.minimize.restore).size = w.size ∧
    (w.minimize.restore).state = WindowState.Normal := by
  have hb : (w.state != WindowState.Minimized) = true := by
    simp [bne_iff_ne, h]
  unfold Window.minimize
  rw [if_pos hb]
  unfold Window.restore Window.rect
  exact ⟨rfl, rfl, rfl⟩

/-- C5 witness: the round trip evaluated on a concrete freshly created
window. -/
theorem claim_C5_witness :
    (Window.new 1 ⟨3, 4⟩).state ≠ WindowState.Minimized ∧
    ((Window.new 1 ⟨3, 4⟩).minimize.restore).position = (Window.new 1 ⟨3, 4⟩).position ∧
    ((Window.new 1 ⟨3, 4⟩).minimize.restore).size = (Window.new 1 ⟨3, 4⟩).size ∧
    ((Window.new 1 ⟨3, 4⟩).minimize.restore).state = WindowState.Normal :=
  ⟨by decide, claim_C5 (Window.new 1 ⟨3, 4⟩) (by decide)⟩

/-! ## Claim C10: 16-bit truncation of mouse coordinates -/

/-- C10: the EVENT_INPUT payload of a mouse event truncates window-local
coordinates to 16 bits without sign extension: param1 is local_x modulo
2^16 and param2 packs local_y modulo 2^16 in its high half over the low
16 bits of the button mask. -/
theorem claim_C10 (rel_x rel_y : Int) (buttons : Nat) (pressed : Bool) :
    (mouse_event rel_x rel_y buttons pressed).param1 = (rel_x % 65536).toNat ∧
    (mouse_event rel_x rel_y buttons pressed).param2 =
      (rel_y % 65536).toNat * 65536 + buttons % 65536 := by
  have key : ∀ v : Int, u16_of_i32 v = (v % 65536).toNat := by
    intro v
    unfold u16_of_i32 u32_of_i32
    have h1 : (0 : Int) ≤ v % 2 ^ 32 := Int.emod_nonneg v (by norm_num)
    have h2 : v % 2 ^ 32 % 65536 = v % 65536 :=
      Int.emod_emod_of_dvd v (by norm_num)
    omega
  constructor
  · exact key rel_x
  · show (u16_of_i32 rel_y <<< 16) ||| (buttons &&& 0xFFFF) = _
    have hand : buttons &&& 0xFFFF = buttons % 65536 := by
      have := Nat.and_pow_two_sub_one_eq_mod buttons 16
      norm_num at this
      exact this
    have hlt : buttons % 65536 < 2 ^ 16 := by
      have : (0 : Nat) < 65536 := by norm_num
      have := Nat.mod_lt buttons this
      norm_num
      omega
    rw [hand, Nat.shiftLeft_eq, key rel_y]
    rw [Nat.mul_comm _ (2 ^ 16)]
    rw [← Nat.mul_add_lt_is_or hlt ((rel_y % 65536).toNat)]

/-! ## Claim C4: damage tracker coalescing and the 16-region bound -/

/-- Merging into the first intersecting region preserves the region count. -/
theorem merge_first_length :
    ∀ (l : List Rect) (c : Rect) (rs : List Rect),
      DamageTracker.merge_first l c = some rs → rs.length = l.length := by
  intro l
  induction l with
  | nil => intro c rs h; simp [DamageTracker.merge_first] at h
  | cons r t ih =>
      intro c rs h
      unfold DamageTracker.merge_first at h
      by_cases hi : r.intersects c
      · rw [if_pos hi] at h
        cases h
        simp
      · rw [if_neg hi] at h
        cases hm : DamageTracker.merge_first t c with
        | none => rw [hm] at h; simp at h
        | some rs2 =>
            rw [hm] at h
            have h2 : r :: rs2 = rs := by simpa using h
            subst h2
            simp [ih c rs2 hm]

/-- One add keeps the region count within the 16-region budget. -/
theorem add_regions_bound (t : DamageTracker) (r : Rect)
    (hm : t.max_regions = 16) (hl : t.regions.length ≤ 16) :
    (t.add r).regions.length ≤ 16 ∧ (t.add r).max_regions = 16 := by
  unfold DamageTracker.add
  split
  · exact ⟨hl, hm⟩
  · cases hint : r.intersection t.screen_rect with
    | none => simp only [hint]; exact ⟨hl, hm⟩
    | some clipped =>
        simp only [hint]
        cases hmerge : DamageTracker.merge_first t.regions clipped with
        | some rs =>
            simp only [hmerge]
            exact ⟨by rw [merge_first_length t.regions clipped rs hmerge]; exact hl, hm⟩
        | none =>
            simp only [hmerge]
            split
            case isTrue hgt =>
                unfold DamageTracker.collapse
                split
                case isTrue hle => simp_all
                case isFalse hle => simp [hm]
            case isFalse hgt =>
                simp only [List.length_append, List.length_cons, List.length_nil] at hgt ⊢
                omega

/-- Any add sequence keeps the region count within the budget. -/
theorem fold_add_bound (rs : List Rect) (t : DamageTracker)
    (hm : t.max_regions = 16) (hl : t.regions.length ≤ 16) :
    (rs.foldl DamageTracker.add t).regions.length ≤ 16 ∧
    (rs.foldl DamageTracker.add t).max_regions = 16 := by
  induction rs generalizing t with
  | nil => exact ⟨hl, hm⟩
  | cons r rest ih =>
      rw [List.foldl_cons]
      have h1 := add_regions_bound t r hm hl
      exact ih (t.add r) h1.2 h1.1

/-- The bounding box with the full-damage flag clear is the fold of union
over the regions. -/
theorem bounding_box_of_not_full (t : DamageTracker) (h : t.full_damage = false) :
    t.bounding_box = DamageTracker.list_bbox t.regions := by
  unfold DamageTracker.bounding_box DamageTracker.list_bbox
  rw [h]
  simp only [Bool.false_eq_true, if_false]

set_option maxRecDepth 10000 in
/-- C4 counterexample: seventeen pairwise disjoint adds on a fresh tracker
(whose full-damage flag is still set). The seventeenth add collapses the
regions to the tracker bounding box, which is the whole screen rect
(0,0,100,100) because the flag is set, not the bounding box (0,0,85,5) of
the seventeen stored regions, contradicting the claim that the collapse
produces the regions' own bounding box. -/
theorem claim_C4_counterexample :
    (((disjoint17.take 16).foldl DamageTracker.add tracker100).add
        ⟨80, 0, 5, 5⟩).regions = [⟨0, 0, 100, 100⟩] ∧
    DamageTracker.list_bbox
        (((disjoint17.take 16).foldl DamageTracker.add tracker100).regions ++
          [⟨80, 0, 5, 5⟩]) = ⟨0, 0, 85, 5⟩ ∧
    (⟨0, 0, 100, 100⟩ : Rect) ≠ ⟨0, 0, 85, 5⟩ := by
  exact ⟨by decide, by decide, by decide⟩

/-- C4 (amended): add clips to the screen and skips empty or off-screen
rects, unions into the first intersecting region or appends, and when the
count would exceed 16 collapses to the tracker bounding box, which equals
the regions' bounding box only while the full-damage flag is clear (with
the flag set it is the whole screen rect); the stored region count stays at
most 16 after any add sequence from a fresh tracker. -/
theorem claim_C4 :
    (∀ (w h : Nat) (rs : List Rect),
       (rs.foldl DamageTracker.add (DamageTracker.new.set_size w h)).regions.length ≤ 16)
    ∧ (∀ (t : DamageTracker) (r : Rect), r.is_empty = true → t.add r = t)
    ∧ (∀ (t : DamageTracker) (r : Rect), r.is_empty = false →
        r.intersection t.screen_rect = none → t.add r = t)
    ∧ (∀ (t : DamageTracker) (r : Rect) (c : Rect) (rs : List Rect), r.is_empty = false →
        r.intersection t.screen_rect = some c →
        DamageTracker.merge_first t.regions c = some rs →
        (t.add r).regions = rs)
    ∧ (∀ (t : DamageTracker) (r : Rect) (c : Rect), r.is_empty = false →
        t.full_damage = false →
        t.max_regions = 16 →
        r.intersection t.screen_rect = some c →
        DamageTracker.merge_first t.regions c = none →
        t.regions.length + 1 > t.max_regions →
        (t.add r).regions = [DamageTracker.list_bbox (t.regions ++ [c])]) := by
  refine ⟨?_, ?_, ?_, ?_, ?_⟩
  · intro w h rs
    exact (fold_add_bound rs (DamageTracker.new.set_size w h) rfl (by simp [DamageTracker.new, DamageTracker.set_size])).1
  · intro t r he
    unfold DamageTracker.add
    rw [if_pos he]
  · intro t r he hint
    unfold DamageTracker.add
    rw [if_neg (by simp [he]), hint]
  · intro t r c rs he hint hmerge
    unfold DamageTracker.add
    rw [if_neg (by simp [he])]
    simp only [hint, hmerge]
  · intro t r c he hfull hmax hint hmerge hgt
    unfold DamageTracker.add
    rw [if_neg (by simp [he])]
    simp only [hint, hmerge]
    rw [if_pos (by simpa using hgt)]
    unfold DamageTracker.collapse
    rw [if_neg (by simp only [List.length_append, List.length_cons, List.length_nil]; omega)]
    rw [show ({ t with regions := t.regions ++ [c] } : DamageTracker).bounding_box =
          DamageTracker.list_bbox (t.regions ++ [c]) from
        bounding_box_of_not_full _ hfull]

set_option maxRecDepth 10000 in
/-- C4 witness: the amended collapse statement evaluated on a concrete
tracker in the cleared state holding sixteen disjoint regions. -/
theorem claim_C4_witness :
    (tracker16.add ⟨80, 0, 5, 5⟩).regions =
      [DamageTracker.list_bbox (tracker16.regions ++ [⟨80, 0, 5, 5⟩])] :=
  claim_C4.2.2.2.2 tracker16 ⟨80, 0, 5, 5⟩ ⟨80, 0, 5, 5⟩
    (by decide) (by decide) (by decide) (by decide) (by decide) (by decide)

/-! ## Claim C3: window_at_point hit testing -/

/-- C3 counterexample: a scene (reachable via create_window, move_window,
mark_window_has_content) whose only window sits at (-5,-5) with size 10x10
and is visible; window_at_point at (-1,-1) returns that window rather than
None, so the boundary part of the claim fails for general scene states. -/
theorem claim_C3_counterexample :
    engine_neg.window_at_point (-1) (-1) = some 1 := by decide

/-- C3 (amended): window_at_point returns the first window, iterating the
layers Cursor, Lock, Overlay, Panel, Top, Normal, Background each from top
to bottom, that is visible and whose rect contains the point, and None when
no window qualifies; it returns None at (-1,-1) and at
(screen.width, screen.height) provided every window's rect lies inside the
screen bounds (a window overlapping those points is otherwise returned). -/
theorem claim_C3 (e : RenderEngine) (x y : Int) :
    (e.window_at_point x y = none ↔
      ∀ id ∈ e.layers.iter_top_to_bottom, e.hit_test x y id = false)
    ∧ (∀ id, e.window_at_point x y = some id ↔
        ∃ l1 l2, e.layers.iter_top_to_bottom = l1 ++ id :: l2 ∧
          e.hit_test x y id = true ∧ ∀ j ∈ l1, e.hit_test x y j = false)
    ∧ ((∀ id w, e.get_window id = some w →
          0 ≤ w.position.x ∧ w.rect.right ≤ (e.screen.width : Int) ∧
          0 ≤ w.position.y ∧ w.rect.bottom ≤ (e.screen.height : Int)) →
        e.window_at_point (-1) (-1) = none ∧
        e.window_at_point (e.screen.width : Int) (e.screen.height : Int) = none) := by
  have hmiss : ∀ (px py : Int),
      (∀ id w, e.get_window id = some w →
        0 ≤ w.position.x ∧ w.rect.right ≤ (e.screen.width : Int) ∧
        0 ≤ w.position.y ∧ w.rect.bottom ≤ (e.screen.height : Int)) →
      (px < 0 ∨ (e.screen.width : Int) ≤ px ∨ py < 0 ∨ (e.screen.height : Int) ≤ py) →
      e.window_at_point px py = none := by
    intro px py hin hout
    unfold RenderEngine.window_at_point
    rw [List.find?_eq_none]
    intro id _
    unfold RenderEngine.hit_test
    cases hw : wlookup e.windows id with
    | none => simp
    | some w =>
        have hb := hin id w hw
        simp only [Bool.not_eq_true]
        have hc : w.contains_point px py = false := by
          unfold Window.contains_point Rect.contains_point
          unfold Window.rect Rect.right Rect.bottom at hb ⊢
          dsimp only at hb ⊢
          simp only [Bool.and_eq_false_iff, decide_eq_false_iff_not, not_lt, not_le]
          omega
        simp [hc]
  refine ⟨?_, ?_, ?_⟩
  · unfold RenderEngine.window_at_point
    rw [List.find?_eq_none]
    simp [Bool.not_eq_true]
  · intro id
    exact find?_eq_some_first (e.hit_test x y) e.layers.iter_top_to_bottom id
  · intro hin
    constructor
    · exact hmiss (-1) (-1) hin (by left; norm_num)
    · exact hmiss (e.screen.width : Int) (e.screen.height : Int) hin (by right; left; omega)

/-- C3 witness: the boundary part of the amended claim evaluated on the
empty scene of a 1024x768 display. -/
theorem claim_C3_witness :
    (RenderEngine.new scr).window_at_point (-1) (-1) = none ∧
    (RenderEngine.new scr).window_at_point 1024 768 = none :=
  (claim_C3 (RenderEngine.new scr) 0 0).2.2
    (by intro id w h; simp [RenderEngine.get_window, RenderEngine.new, wlookup] at h)

/-! ## Engine projection lemmas -/

/-- Moving a window does not change the layer lists. -/
theorem move_window_layers (e : RenderEngine) (id : Nat) (x y : Int) :
    (e.move_window id x y).layers = e.layers := by
  unfold RenderEngine.move_window
  cases h : wlookup e.windows id <;> rfl

/-- Moving a window does not change the id counter. -/
theorem move_window_next (e : RenderEngine) (id : Nat) (x y : Int) :
    (e.move_window id x y).next_window_id = e.next_window_id := by
  unfold RenderEngine.move_window
  cases h : wlookup e.windows id <;> rfl

/-- Moving a window does not change the focus. -/
theorem move_window_focus (e : RenderEngine) (id : Nat) (x y : Int) :
    (e.move_window id x y).focused_window = e.focused_window := by
  unfold RenderEngine.move_window
  cases h : wlookup e.windows id <;> rfl

/-- Looking up the moved window yields it at the new position. -/
theorem move_window_lookup_self (e : RenderEngine) (id : Nat) (x y : Int) (w : Window)
    (h : wlookup e.windows id = some w) :
    wlookup (e.move_window id x y).windows id = some (w.move_to x y) := by
  unfold RenderEngine.move_window
  rw [h]
  simp only
  rw [wlookup_wupdate_self, h]
  rfl

/-- Looking up another window after a move is unchanged. -/
theorem move_window_lookup_ne (e : RenderEngine) (id id2 : Nat) (x y : Int)
    (h : id2 ≠ id) :
    wlookup (e.move_window id x y).windows id2 = wlookup e.windows id2 := by
  unfold RenderEngine.move_window
  cases hw : wlookup e.windows id with
  | none => rfl
  | some w =>
      simp only
      rw [wlookup_wupdate_ne _ _ _ _ h]

/-- set_focus does not change the windows map. -/
theorem set_focus_windows (e : RenderEngine) (o : Option Nat) :
    (e.set_focus o).windows = e.windows := by
  unfold RenderEngine.set_focus
  split <;> rfl

/-- set_focus does not change the layer lists. -/
theorem set_focus_layers (e : RenderEngine) (o : Option Nat) :
    (e.set_focus o).layers = e.layers := by
  unfold RenderEngine.set_focus
  split <;> rfl

/-- set_focus does not change the id counter. -/
theorem set_focus_next (e : RenderEngine) (o : Option Nat) :
    (e.set_focus o).next_window_id = e.next_window_id := by
  unfold RenderEngine.set_focus
  split <;> rfl

/-- Applying a per-layer modification and reading the same layer back. -/
theorem layer_get_modify (m : LayerManager) (lt : LayerType) (f : Layer → Layer) :
    (m.modify lt f).get lt = f (m.get lt) := by
  cases lt <;> rfl

/-- A window id is present after Layer::add_window of that id. -/
theorem mem_add_window (l : Layer) (id : Nat) : id ∈ (l.add_window id).windows := by
  unfold Layer.add_window
  by_cases h : l.windows.contains id
  · rw [if_pos h]
    exact List.elem_iff.mp h
  · rw [if_neg h]
    simp

/-! ## Claim C2: shm allocation failure escapes to the loop -/

/-- C2 counterexample: a CREATE_WINDOW whose shared-memory allocation fails
makes the handler return an error that escapes through process_messages
(the embedding of the message-draining loop), so a Resource error, not only
PlatformFatal, reaches the loop and run returns it; the claim that the
error does not escape the handler and the loop keeps running is false. -/
theorem claim_C2_counterexample :
    (process_messages plat_no_shm (Server.init scr) [Msg.CREATE_WINDOW norm_req]).2 =
      some SysErr.shm_fail := by decide

/-- C2 (amended): when shm allocation fails, the CREATE_WINDOW request is
dropped before any reply or mutation (the handler returns with the state
unchanged), but the error escapes the handler and short-circuits the
message loop, which hands it out of Server::run. -/
theorem claim_C2 (plat : Platform) (s : Server) (req : CreateWindowRequest)
    (rest : List Msg) (h : plat.shm_ok = false) :
    handle_message plat s (Msg.CREATE_WINDOW req) = (s, some SysErr.shm_fail) ∧
    process_messages plat s (Msg.CREATE_WINDOW req :: rest) = (s, some SysErr.shm_fail) := by
  have h1 : handle_create_window plat s.render_engine s.client_ports s.taskbar_port s.log req
      = Except.error SysErr.shm_fail := by
    unfold handle_create_window
    rw [if_pos (by simp [h])]
  have h2 : handle_message plat s (Msg.CREATE_WINDOW req) = (s, some SysErr.shm_fail) := by
    simp only [handle_message, h1]
  refine ⟨h2, ?_⟩
  unfold process_messages
  rw [h2]

/-- C2 witness: the amended statement evaluated on the initial server and a
platform whose shm allocation fails. -/
theorem claim_C2_witness :
    process_messages plat_no_shm (Server.init scr) [Msg.CREATE_WINDOW norm_req] =
      (Server.init scr, some SysErr.shm_fail) :=
  (claim_C2 plat_no_shm (Server.init scr) norm_req [] rfl).2

/-! ## Claim C9: minimizing the focused window does not clear focus -/

/-- C9 counterexample: create a Normal window (which takes focus), then
MINIMIZE_WINDOW it: the window ends Minimized but the focus still points at
it, contradicting the claim that minimizing the focused window clears the
focus to None. -/
theorem claim_C9_counterexample :
    (process_messages plat_all_ok (Server.init scr)
        [Msg.CREATE_WINDOW norm_req, Msg.MINIMIZE_WINDOW 1]).1.focused_window = some 1 ∧
    ((process_messages plat_all_ok (Server.init scr)
        [Msg.CREATE_WINDOW norm_req, Msg.MINIMIZE_WINDOW 1]).1.render_engine.get_window 1).map
      (fun w => w.state) = some WindowState.Minimized :=
  ⟨by decide, by decide⟩

/-- C9 (amended): the MINIMIZE_WINDOW handler (used both by the opcode path
and the title-bar minimize button) leaves the focused window unchanged,
while destroying the focused window clears the focus to None. -/
theorem claim_C9 (plat : Platform) (s : Server) (window_id : Nat) :
    (handle_minimize_window s window_id).focused_window = s.focused_window ∧
    (handle_message plat s (Msg.MINIMIZE_WINDOW window_id)).1.focused_window =
      s.focused_window ∧
    (s.focused_window = some window_id →
      (handle_message plat s (Msg.DESTROY_WINDOW window_id)).1.focused_window = none) := by
  have h1 : (handle_minimize_window s window_id).focused_window = s.focused_window := by
    unfold handle_minimize_window
    cases h : s.render_engine.get_window window_id <;> rfl
  refine ⟨h1, ?_, ?_⟩
  · simp only [handle_message]
    exact h1
  · intro hf
    simp only [handle_message]
    rw [if_pos (by simp [hf])]
    rfl

/-- C9 witness: destroying the focused window on a concrete server state
clears the focus. -/
theorem claim_C9_witness :
    (handle_message plat_all_ok
        ((process_messages plat_all_ok (Server.init scr) [Msg.CREATE_WINDOW norm_req]).1)
        (Msg.DESTROY_WINDOW 1)).1.focused_window = none :=
  (claim_C9 plat_all_ok
      ((process_messages plat_all_ok (Server.init scr) [Msg.CREATE_WINDOW norm_req]).1)
      1).2.2 (by decide)

/-! ## The CREATE_WINDOW path (claims C7 and C1) -/

/-- With shm allocation succeeding, the CREATE_WINDOW handler returns the
factored engine, ports, log, the allocated id and the decided layer. -/
theorem handle_create_window_ok (plat : Platform) (e0 : RenderEngine) (ports0 : List Nat)
    (tb : Bool) (log0 : EffectLog) (req : CreateWindowRequest) (hshm : plat.shm_ok = true) :
    handle_create_window plat e0 ports0 tb log0 req =
      Except.ok (create_engine e0 req,
        (create_ports_log plat ports0 log0 tb req e0.next_window_id).1,
        (create_ports_log plat ports0 log0 tb req e0.next_window_id).2,
        e0.next_window_id, determine_layer req.flags req.y) := by
  unfold handle_create_window create_engine create_ports_log
  rw [if_neg (by simp [hshm])]
  rfl

/-- The engine after a create has the incremented id counter. -/
theorem create_engine_next (e0 : RenderEngine) (req : CreateWindowRequest) :
    (create_engine e0 req).next_window_id = e0.next_window_id + 1 := by
  unfold create_engine
  dsimp only [RenderEngine.create_window]
  rw [move_window_next]

/-- The engine after a create has the new id appended to the decided
layer. -/
theorem create_engine_layers (e0 : RenderEngine) (req : CreateWindowRequest) :
    (create_engine e0 req).layers =
      e0.layers.add_window_to_layer e0.next_window_id (determine_layer req.flags req.y) := by
  unfold create_engine
  dsimp only [RenderEngine.create_window]
  rw [move_window_layers]

/-- Looking up the new id after a create yields the created window. -/
theorem create_engine_lookup_self (e0 : RenderEngine) (req : CreateWindowRequest) :
    wlookup (create_engine e0 req).windows e0.next_window_id =
      some (created_window e0 req) := by
  unfold create_engine created_window
  dsimp only [RenderEngine.create_window]
  unfold RenderEngine.move_window
  rw [wlookup_winsert_self]
  dsimp only
  rw [wlookup_wupdate_self, wlookup_wupdate_self, wlookup_winsert_self]
  rfl

/-- Looking up any other id after a create is unchanged. -/
theorem create_engine_lookup_ne (e0 : RenderEngine) (req : CreateWindowRequest)
    (id2 : Nat) (h : id2 ≠ e0.next_window_id) :
    wlookup (create_engine e0 req).windows id2 = wlookup e0.windows id2 := by
  unfold create_engine
  dsimp only [RenderEngine.create_window]
  unfold RenderEngine.move_window
  rw [wlookup_winsert_self]
  dsimp only
  rw [wlookup_wupdate_ne _ _ _ _ h, wlookup_wupdate_ne _ _ _ _ h,
    wlookup_winsert_ne _ _ _ _ h]

/-- The created window carries the decided layer. -/
theorem created_window_layer (e0 : RenderEngine) (req : CreateWindowRequest) :
    (created_window e0 req).layer = determine_layer req.flags req.y := rfl

/-- Lifecycle emission leaves the reply log unchanged. -/
theorem send_lifecycle_event_replies (tb : Bool) (log : EffectLog) (k : LifecycleKind)
    (i : Nat) (t : String) :
    (send_lifecycle_event tb log k i t).replies = log.replies := by
  unfold send_lifecycle_event
  split <;> rfl

/-- Lifecycle emission appends exactly when a taskbar is registered. -/
theorem send_lifecycle_event_lifecycle (tb : Bool) (log : EffectLog) (k : LifecycleKind)
    (i : Nat) (t : String) :
    (send_lifecycle_event tb log k i t).lifecycle =
      log.lifecycle ++ (if tb then [⟨k, i, t⟩] else []) := by
  unfold send_lifecycle_event
  split
  case isTrue h => simp [h]
  case isFalse h => simp [h]

/-! ## Claim C7: Background-layer windows and keyboard focus -/

/-- C7 counterexample: create a Background window (which correctly does not
take focus), then RESTORE_WINDOW it: the restore handler unconditionally
grants focus, leaving a Background-layer window focused, contradicting the
claimed reachable-state invariant. -/
theorem claim_C7_counterexample :
    (process_messages plat_all_ok (Server.init scr)
        [Msg.CREATE_WINDOW bg_req, Msg.RESTORE_WINDOW 1]).1.focused_window = some 1 ∧
    ((process_messages plat_all_ok (Server.init scr)
        [Msg.CREATE_WINDOW bg_req, Msg.RESTORE_WINDOW 1]).1.render_engine.get_window 1).map
      (fun w => w.layer) = some LayerType.Background :=
  ⟨by decide, by decide⟩

/-- C7 (amended): the CREATE_WINDOW path preserves the no-Background-focus
invariant (a new Background window never takes focus at creation), but the
invariant does not hold over all operation sequences: RESTORE_WINDOW (and a
mouse click hitting a Background window) set focus regardless of layer. -/
theorem claim_C7 (plat : Platform) (s : Server) (req : CreateWindowRequest)
    (hinv : focus_not_background s) (hwf : focus_id_bound s) :
    focus_not_background (handle_message plat s (Msg.CREATE_WINDOW req)).1 ∧
    focus_id_bound (handle_message plat s (Msg.CREATE_WINDOW req)).1 := by
  by_cases hshm : plat.shm_ok = true
  case neg =>
    have hsf : plat.shm_ok = false := by
      cases h : plat.shm_ok
      · rfl
      · exact absurd h hshm
    have h1 : handle_create_window plat s.render_engine s.client_ports s.taskbar_port s.log req
        = Except.error SysErr.shm_fail := by
      unfold handle_create_window
      rw [if_pos (by simp [hsf])]
    simp only [handle_message, h1]
    exact ⟨hinv, hwf⟩
  case pos =>
    simp only [handle_message,
      handle_create_window_ok plat s.render_engine s.client_ports s.taskbar_port s.log req hshm]
    by_cases hbg : determine_layer req.flags req.y = LayerType.Background
    · rw [if_neg (by simp [hbg])]
      constructor
      · intro id w hf hw
        dsimp only at hf hw
        have hne : id ≠ s.render_engine.next_window_id := by
          have := hwf id hf
          omega
        unfold RenderEngine.get_window at hw
        rw [create_engine_lookup_ne _ _ _ hne] at hw
        exact hinv id w hf hw
      · intro id hf
        dsimp only at hf ⊢
        rw [create_engine_next]
        have := hwf id hf
        omega
    · rw [if_pos (by simp [hbg])]
      constructor
      · intro id w hf hw
        dsimp only at hf hw
        have hid : id = s.render_engine.next_window_id := by
          cases hf
          rfl
        subst hid
        unfold RenderEngine.get_window at hw
        rw [set_focus_windows, create_engine_lookup_self] at hw
        cases hw
        rw [created_window_layer]
        exact hbg
      · intro id hf
        dsimp only at hf ⊢
        have hid : id = s.render_engine.next_window_id := by
          cases hf
          rfl
        subst hid
        rw [set_focus_next, create_engine_next]
        omega

/-- C7 witness: the preserved invariant evaluated after creating a concrete
Background window on the initial server. -/
theorem claim_C7_witness :
    focus_not_background
      (handle_message plat_all_ok (Server.init scr) (Msg.CREATE_WINDOW bg_req)).1 :=
  (claim_C7 plat_all_ok (Server.init scr) bg_req
      (fun id w hf => absurd hf (by simp [Server.init]))
      (fun id hf => absurd hf (by simp [Server.init]))).1

/-! ## Claim C1: reply-port connect failure during CREATE_WINDOW -/

/-- C1 counterexample: with a registered taskbar and every reply-port
connect attempt failing, CREATE_WINDOW keeps the new window in the engine
(it is not rolled back) and still emits the CREATED lifecycle event; only
the reply and the client-registry entry are skipped. The claimed drop of
the window and suppression of the event do not happen. -/
theorem claim_C1_counterexample :
    ((handle_message plat_all_fail server_tb (Msg.CREATE_WINDOW norm_req)).1.render_engine.get_window
        1).isSome = true ∧
    (handle_message plat_all_fail server_tb (Msg.CREATE_WINDOW norm_req)).1.log.lifecycle =
      [⟨LifecycleKind.CREATED, 1, "a"⟩] ∧
    (handle_message plat_all_fail server_tb (Msg.CREATE_WINDOW norm_req)).1.client_ports = [] ∧
    (handle_message plat_all_fail server_tb (Msg.CREATE_WINDOW norm_req)).1.log.replies = [] :=
  ⟨by decide, by decide, by decide, by decide⟩

/-- C1 (amended): when all 10 reply-port connect attempts fail, the new
window is kept (still registered in the engine and appended to its layer)
and the CREATED lifecycle event is still emitted when a taskbar is
registered; only the WINDOW_CREATED reply and the client-registry entry are
skipped, and no error escapes the handler. -/
theorem claim_C1 (plat : Platform) (s : Server) (req : CreateWindowRequest)
    (hconn : ∀ i, i < 10 → plat.connect_ok i = false) (hshm : plat.shm_ok = true) :
    (handle_message plat s (Msg.CREATE_WINDOW req)).2 = none ∧
    (handle_message plat s (Msg.CREATE_WINDOW req)).1.render_engine.get_window
        s.render_engine.next_window_id = some (created_window s.render_engine req) ∧
    s.render_engine.next_window_id ∈
      (((handle_message plat s (Msg.CREATE_WINDOW req)).1.render_engine.layers.get
          (determine_layer req.flags req.y)).windows) ∧
    (handle_message plat s (Msg.CREATE_WINDOW req)).1.client_ports = s.client_ports ∧
    (handle_message plat s (Msg.CREATE_WINDOW req)).1.log.replies = s.log.replies ∧
    (handle_message plat s (Msg.CREATE_WINDOW req)).1.log.lifecycle =
      s.log.lifecycle ++
        (if s.taskbar_port then
           [⟨LifecycleKind.CREATED, s.render_engine.next_window_id, req.title⟩]
         else []) := by
  have hfind : (List.range 10).find? (fun i => plat.connect_ok i) = none := by
    rw [List.find?_eq_none]
    intro i hi
    simp [hconn i (List.mem_range.mp hi)]
  have hcar : ∀ wid bs, connect_and_respond plat s.client_ports s.log wid bs =
      (s.client_ports, s.log) := by
    intro wid bs
    unfold connect_and_respond
    rw [hfind]
  have hpl : create_ports_log plat s.client_ports s.log s.taskbar_port req
        s.render_engine.next_window_id =
      (s.client_ports,
       send_lifecycle_event s.taskbar_port s.log LifecycleKind.CREATED
         s.render_engine.next_window_id req.title) := by
    unfold create_ports_log
    by_cases hv : req.reply_port_valid = true
    · rw [if_pos hv, hcar]
    · rw [if_neg hv]
  simp only [handle_message,
    handle_create_window_ok plat s.render_engine s.client_ports s.taskbar_port s.log req hshm,
    hpl]
  by_cases hbg : determine_layer req.flags req.y = LayerType.Background
  · rw [if_neg (by simp [hbg])]
    refine ⟨rfl, ?_, ?_, rfl, ?_, ?_⟩
    · show wlookup (create_engine s.render_engine req).windows _ = _
      exact create_engine_lookup_self s.render_engine req
    · show s.render_engine.next_window_id ∈
        (((create_engine s.render_engine req).layers).get (determine_layer req.flags req.y)).windows
      rw [create_engine_layers]
      unfold LayerManager.add_window_to_layer
      rw [layer_get_modify]
      exact mem_add_window _ _
    · exact send_lifecycle_event_replies _ _ _ _ _
    · exact send_lifecycle_event_lifecycle _ _ _ _ _
  · rw [if_pos (by simp [hbg])]
    refine ⟨rfl, ?_, ?_, rfl, ?_, ?_⟩
    · show wlookup ((create_engine s.render_engine req).set_focus _).windows _ = _
      rw [set_focus_windows]
      exact create_engine_lookup_self s.render_engine req
    · show s.render_engine.next_window_id ∈
        ((((create_engine s.render_engine req).set_focus _).layers).get
          (determine_layer req.flags req.y)).windows
      rw [set_focus_layers, create_engine_layers]
      unfold LayerManager.add_window_to_layer
      rw [layer_get_modify]
      exact mem_add_window _ _
    · exact send_lifecycle_event_replies _ _ _ _ _
    · exact send_lifecycle_event_lifecycle _ _ _ _ _

/-- C1 witness: the amended statement evaluated on a concrete server with a
registered taskbar and a platform whose connect attempts all fail. -/
theorem claim_C1_witness :
    (handle_message plat_all_fail server_tb (Msg.CREATE_WINDOW norm_req)).1.render_engine.get_window
        1 = some (created_window server_tb.render_engine norm_req) ∧
    (handle_message plat_all_fail server_tb (Msg.CREATE_WINDOW norm_req)).1.log.lifecycle =
      [⟨LifecycleKind.CREATED, 1, "a"⟩] :=
  ⟨(claim_C1 plat_all_fail server_tb norm_req (fun _ _ => rfl) rfl).2.1,
   ((claim_C1 plat_all_fail server_tb norm_req (fun _ _ => rfl) rfl).2.2.2.2.2).trans
     (by decide)⟩

/-! ## Claim C8: title-bar drag -/

/-- C8 counterexample: in the specified drag scenario the drag does start
with offset (10, 8) and the second event moves the window to (130, 104),
but the release event only stops the drag without moving the window, so the
final position is (130, 104), not the claimed (150, 107). -/
theorem claim_C8_counterexample :
    (process_messages plat_all_ok (Server.init scr) (drag_msgs.take 3)).1.drag =
      ⟨some 1, 10, 8⟩ ∧
    ((process_messages plat_all_ok (Server.init scr)
        (drag_msgs.take 4)).1.render_engine.get_window 1).map (fun w => w.position) =
      some ⟨130, 104⟩ ∧
    ((process_messages plat_all_ok (Server.init scr)
        drag_msgs).1.render_engine.get_window 1).map (fun w => w.position) =
      some ⟨130, 104⟩ ∧
    (process_messages plat_all_ok (Server.init scr) drag_msgs).1.drag.window_id = none ∧
    (⟨130, 104⟩ : Point) ≠ ⟨150, 107⟩ :=
  ⟨by decide, by decide, by decide, by decide, by decide⟩

/-- C8 (amended): while a drag is active and the primary button stays held
(no press edge), a mouse update moves the dragged window to
(mouse - drag_offset) and marks full-screen damage; in the concrete
scenario the drag starts with offset (10, 8), the second event moves the
window to (130, 104), and the release stops the drag leaving the position
at (130, 104). -/
theorem claim_C8 :
    (∀ (s : Server) (buttons win_id : Nat),
      s.drag.window_id = some win_id →
      buttons &&& 1 ≠ 0 →
      s.mouse.prev_buttons &&& 1 ≠ 0 →
      process_mouse_input s buttons =
        { s with
            render_engine :=
              (s.render_engine.move_window win_id (s.mouse.x - s.drag.offset_x)
                (s.mouse.y - s.drag.offset_y)).full_screen_damage
            mouse := s.mouse.save_buttons buttons })
    ∧ (process_messages plat_all_ok (Server.init scr) (drag_msgs.take 3)).1.drag =
        ⟨some 1, 10, 8⟩
    ∧ ((process_messages plat_all_ok (Server.init scr)
          drag_msgs).1.render_engine.get_window 1).map (fun w => w.position) =
        some ⟨130, 104⟩
    ∧ (process_messages plat_all_ok (Server.init scr) drag_msgs).1.drag.window_id = none := by
  refine ⟨?_, by decide, by decide, by decide⟩
  intro s buttons win_id hd hb hp
  have hb2 : (buttons &&& 1 != 0) = true := bne_iff_ne.mpr hb
  have hp2 : (s.mouse.prev_buttons &&& 1 != 0) = true := bne_iff_ne.mpr hp
  have hjp : s.mouse.left_just_pressed buttons = false := by
    unfold MouseState.left_just_pressed
    rw [hp2]
    simp
  have hjr : s.mouse.left_just_released buttons = false := by
    unfold MouseState.left_just_released
    rw [hb2]
    simp
  have hlp : MouseState.left_pressed buttons = true := hb2
  unfold process_mouse_input
  simp only [hjp, Bool.false_eq_true, if_false, hd, hlp, if_true, hjr]

/-- C8 witness: the general drag step evaluated on the concrete mid-drag
state of the scenario (mouse at (140, 112), offset (10, 8), button held). -/
theorem claim_C8_witness :
    process_mouse_input drag_state_mid 1 =
      { drag_state_mid with
          render_engine :=
            (drag_state_mid.render_engine.move_window 1
              (drag_state_mid.mouse.x - drag_state_mid.drag.offset_x)
              (drag_state_mid.mouse.y - drag_state_mid.drag.offset_y)).full_screen_damage
          mouse := drag_state_mid.mouse.save_buttons 1 } :=
  claim_C8.1 drag_state_mid 1 1 (by decide) (by decide) (by decide)

/-! ## Claim C6: blitter clipping -/

/-- A checked row iteration succeeds when every row step succeeds. -/
theorem iter_rows_checked_eq (row : List Nat → Nat → List Nat)
    (rowc : List Nat → Nat → Option (List Nat))
    (h : ∀ buf y, rowc buf y = some (row buf y)) :
    ∀ (n : Nat) (buf : List Nat),
      iter_rows_checked rowc n buf = some (iter_rows row n buf) := by
  intro n
  induction n with
  | zero => intro buf; rfl
  | succ n ih =>
      intro buf
      unfold iter_rows_checked iter_rows
      rw [ih buf]
      exact h _ _

/-- Each opaque scanline passes its slice bounds checks: the clamping
arithmetic keeps both the read and the written range inside the buffers. -/
theorem blit_opaque_row_checked_eq (src : List Nat) (src_size : Size) (src_rect : Rect)
    (dst_point : Point) (clipped : Rect) (dst_stride : Nat) (buf : List Nat) (y : Nat) :
    blit_opaque_row_checked src src_size src_rect dst_point clipped dst_stride buf y =
      some (blit_opaque_row src src_size src_rect dst_point clipped dst_stride buf y) := by
  unfold blit_opaque_row_checked blit_opaque_row
  dsimp only
  split
  · rfl
  · split
    case isTrue hc =>
        rw [if_pos (by omega)]
    case isFalse hc => rfl

/-- C6 safety, opaque half: blit_opaque never indexes either buffer out of
bounds. -/
theorem blit_opaque_checked_eq (dst : List Nat) (dst_size : Size) (src : List Nat)
    (src_size : Size) (src_rect : Rect) (dst_point : Point) :
    blit_opaque_checked dst dst_size src src_size src_rect dst_point =
      some ( blit_opaque dst dst_size src src_size src_rect dst_point) := by
  unfold blit_opaque_checked blit_opaque
  dsimp only
  cases hint : Rect.intersection ⟨dst_point.x, dst_point.y, src_rect.width, src_rect.height⟩
      ⟨0, 0, dst_size.width, dst_size.height⟩ with
  | none => rfl
  | some clipped =>
      exact iter_rows_checked_eq _ _
        (fun buf2 y => blit_opaque_row_checked_eq src src_size src_rect dst_point clipped
          dst_size.width buf2 y) clipped.height dst

/-- Each alpha pixel step passes its index bounds checks. -/
theorem blit_alpha_pixel_checked_eq (src : List Nat) (src_size dst_size : Size)
    (src_rect : Rect) (dst_point : Point) (y : Nat) (buf : List Nat) (x : Nat) :
    blit_alpha_pixel_checked src src_size dst_size src_rect dst_point y buf x =
      some (blit_alpha_pixel src src_size dst_size src_rect dst_point y buf x) := by
  unfold blit_alpha_pixel_checked blit_alpha_pixel
  dsimp only
  split
  · rfl
  · split
    case isTrue hc => rfl
    case isFalse hc =>
        rw [if_pos (by omega)]
        split
        · rfl
        · split <;> rfl

/-- C6 safety, alpha half: blit_alpha never indexes either buffer out of
bounds. -/
theorem blit_alpha_checked_eq (dst : List Nat) (dst_size : Size) (src : List Nat)
    (src_size : Size) (src_rect : Rect) (dst_point : Point) :
    blit_alpha_checked dst dst_size src src_size src_rect dst_point =
      some (blit_alpha dst dst_size src src_size src_rect dst_point) := by
  unfold blit_alpha_checked blit_alpha
  refine iter_rows_checked_eq _ _ (fun buf y => ?_) src_rect.height dst
  unfold blit_alpha_row
  dsimp only
  split
  · rfl
  · exact iter_rows_checked_eq _ _
      (fun b x => blit_alpha_pixel_checked_eq src src_size dst_size src_rect dst_point y b x)
      src_rect.width buf

/-- C6 counterexample: an opaque blit whose source rect extends one column
past the right edge of a 2x2 source copies a row-wrapped pixel: destination
index 1, which lies outside the intersection area, receives source pixel 3
(the first pixel of the next source row), so the copy is not exactly the
intersection area. -/
theorem claim_C6_counterexample :
    blit_opaque cex_dst ⟨4, 4⟩ cex_src ⟨2, 2⟩ cex_rect ⟨0, 0⟩ ≠
      blit_opaque_spec cex_dst ⟨4, 4⟩ cex_src ⟨2, 2⟩ cex_rect ⟨0, 0⟩ ∧
    blit_opaque cex_dst ⟨4, 4⟩ cex_src ⟨2, 2⟩ cex_rect ⟨0, 0⟩ =
      [2, 3, 0, 0, 4, 0, 0, 0, 0, 0, 0, 0, 0, 0, 0, 0] ∧
    blit_opaque_spec cex_dst ⟨4, 4⟩ cex_src ⟨2, 2⟩ cex_rect ⟨0, 0⟩ =
      [2, 0, 0, 0, 4, 0, 0, 0, 0, 0, 0, 0, 0, 0, 0, 0] :=
  ⟨by decide, by decide, by decide⟩

/-- Row-major indexing stays inside a width-by-height buffer. -/
theorem rowmajor_lt (a b A B : Nat) (ha : a < A) (hb : b < B) :
    a * B + b < A * B := by
  calc a * B + b < a * B + B := by omega
    _ = (a + 1) * B := by ring
    _ ≤ A * B := Nat.mul_le_mul_right B ha

/-- Row-major indices agree only on equal row and column (columns within
the width). -/
theorem rowmajor_inj (a1 a2 b1 b2 B : Nat) (h1 : b1 < B) (h2 : b2 < B)
    (he : a1 * B + b1 = a2 * B + b2) : a1 = a2 ∧ b1 = b2 := by
  have ha : a1 = a2 := by
    by_contra hne
    rcases Nat.lt_or_ge a1 a2 with hlt | hge
    · have : a1 * B + b1 < a2 * B + b2 := by
        calc a1 * B + b1 < a1 * B + B := by omega
          _ = (a1 + 1) * B := by ring
          _ ≤ a2 * B := Nat.mul_le_mul_right B hlt
          _ ≤ a2 * B + b2 := by omega
      omega
    · have hlt2 : a2 < a1 := by omega
      have : a2 * B + b2 < a1 * B + b1 := by
        calc a2 * B + b2 < a2 * B + B := by omega
          _ = (a2 + 1) * B := by ring
          _ ≤ a1 * B := Nat.mul_le_mul_right B hlt2
          _ ≤ a1 * B + b1 := by omega
      omega
  subst ha
  omega

/-- getD agrees on two buffers wherever the optional lookup agrees. -/
theorem getD_congr (l1 l2 : List Nat) (i : Nat) (h : l1[i]? = l2[i]?) :
    l1.getD i 0 = l2.getD i 0 := by
  rw [List.getD_eq_getElem?_getD, List.getD_eq_getElem?_getD, h]

/-- Characterization of a loop whose iteration x either writes value
val x at index idx x (a function of the pre-loop value there) when enabled,
or leaves the buffer unchanged: the loop writes exactly the enabled
indices. -/
theorem iter_write_char (F : List Nat → Nat → List Nat) (L : Nat)
    (idx : Nat → Nat) (val : Nat → Nat → Nat) (en : Nat → Prop)
    (hidx_lt : ∀ x, en x → idx x < L)
    (hidx_inj : ∀ x1 x2, en x1 → en x2 → idx x1 = idx x2 → x1 = x2)
    (hstep_w : ∀ buf x, buf.length = L → en x →
      F buf x = buf.set (idx x) (val x (buf.getD (idx x) 0)) ∨
        (F buf x = buf ∧ val x (buf.getD (idx x) 0) = buf.getD (idx x) 0))
    (hstep_n : ∀ buf x, buf.length = L → ¬ en x → F buf x = buf) :
    ∀ (n : Nat) (buf : List Nat), buf.length = L →
      (iter_rows F n buf).length = L ∧
      (∀ j, (¬ ∃ x, x < n ∧ en x ∧ j = idx x) → (iter_rows F n buf)[j]? = buf[j]?) ∧
      (∀ x, x < n → en x →
        (iter_rows F n buf)[idx x]? = some (val x (buf.getD (idx x) 0))) := by
  intro n
  induction n with
  | zero =>
      intro buf hlen
      exact ⟨hlen, fun j _ => rfl, fun x hx _ => absurd hx (by omega)⟩
  | succ n ih =>
      intro buf hlen
      obtain ⟨ihl, ihn, ihw⟩ := ih buf hlen
      have hunf : iter_rows F (n + 1) buf = F (iter_rows F n buf) n := rfl
      rw [hunf]
      by_cases hen : en n
      · have hnotm : ¬ ∃ x, x < n ∧ en x ∧ idx n = idx x := by
          rintro ⟨x, hx, hex, hidx⟩
          have := hidx_inj n x hen hex hidx
          omega
        have hBeq : (iter_rows F n buf)[idx n]? = buf[idx n]? := ihn (idx n) hnotm
        have hgd : (iter_rows F n buf).getD (idx n) 0 = buf.getD (idx n) 0 :=
          getD_congr _ _ _ hBeq
        rcases hstep_w (iter_rows F n buf) n ihl hen with hw | ⟨hw, hv⟩
        · refine ⟨by rw [hw]; simp [ihl], ?_, ?_⟩
          · intro j hj
            rw [hw]
            have hjn : idx n ≠ j := by
              intro hc
              exact hj ⟨n, by omega, hen, hc.symm⟩
            rw [List.getElem?_set_ne hjn]
            exact ihn j (fun ⟨x, hx, hex, hjx⟩ => hj ⟨x, by omega, hex, hjx⟩)
          · intro x hx hex
            rw [hw]
            by_cases hxn : x = n
            · subst hxn
              rw [hgd, List.getElem?_set_self (by rw [ihl]; exact hidx_lt x hex)]
            · have hne : idx n ≠ idx x := fun hc => hxn (hidx_inj x n hex hen hc.symm)
              rw [List.getElem?_set_ne hne]
              exact ihw x (by omega) hex
        · refine ⟨by rw [hw]; exact ihl, ?_, ?_⟩
          · intro j hj
            rw [hw]
            exact ihn j (fun ⟨x, hx, hex, hjx⟩ => hj ⟨x, by omega, hex, hjx⟩)
          · intro x hx hex
            rw [hw]
            by_cases hxn : x = n
            · subst hxn
              rw [hgd] at hv
              rw [hBeq, hv]
              have hbnd : idx x < buf.length := by rw [hlen]; exact hidx_lt x hex
              rw [List.getElem?_eq_getElem hbnd]
              rw [List.getD_eq_getElem?_getD, List.getElem?_eq_getElem hbnd]
              rfl
            · exact ihw x (by omega) hex
      · have hw := hstep_n (iter_rows F n buf) n ihl hen
        refine ⟨by rw [hw]; exact ihl, ?_, ?_⟩
        · intro j hj
          rw [hw]
          exact ihn j (fun ⟨x, hx, hex, hjx⟩ => hj ⟨x, by omega, hex, hjx⟩)
        · intro x hx hex
          rw [hw]
          by_cases hxn : x = n
          · subst hxn
            exact absurd hex hen
          · exact ihw x (by omega) hex

/-- The usize cast of a small natural is the identity. -/
theorem usize_of_i32_natCast (n : Nat) (h : n < 2 ^ 63) :
    usize_of_i32 (n : Int) = n := by
  unfold usize_of_i32
  omega

/-- One alpha pixel step, at in-range natural coordinates: when both source
and destination columns are in bounds the step writes the source-over value
at the row-major destination index (or skips a fully transparent pixel,
which leaves the same value); otherwise it leaves the buffer unchanged. -/
theorem alpha_pixel_write (src : List Nat) (SW SH W H RX RY PX PY rw rh y : Nat)
    (hRX : RX < 2 ^ 31) (hRY : RY < 2 ^ 31) (hPX : PX < 2 ^ 31) (hPY : PY < 2 ^ 31)
    (hsrc : src.length = SW * SH) (hy1 : RY + y < SH) (hy2 : PY + y < H)
    (buf : List Nat) (x : Nat) (hbuf : buf.length = W * H) :
    ((RX + x < SW ∧ PX + x < W) →
      (blit_alpha_pixel src ⟨SW, SH⟩ ⟨W, H⟩ ⟨(RX : Int), (RY : Int), rw, rh⟩
          ⟨(PX : Int), (PY : Int)⟩ y buf x =
        buf.set ((PY + y) * W + (PX + x))
          (alpha_apply (src.getD ((RY + y) * SW + (RX + x)) 0)
            (buf.getD ((PY + y) * W + (PX + x)) 0)) ∨
       (blit_alpha_pixel src ⟨SW, SH⟩ ⟨W, H⟩ ⟨(RX : Int), (RY : Int), rw, rh⟩
            ⟨(PX : Int), (PY : Int)⟩ y buf x = buf ∧
        alpha_apply (src.getD ((RY + y) * SW + (RX + x)) 0)
            (buf.getD ((PY + y) * W + (PX + x)) 0) =
          buf.getD ((PY + y) * W + (PX + x)) 0))) ∧
    (¬ (RX + x < SW ∧ PX + x < W) →
      blit_alpha_pixel src ⟨SW, SH⟩ ⟨W, H⟩ ⟨(RX : Int), (RY : Int), rw, rh⟩
          ⟨(PX : Int), (PY : Int)⟩ y buf x = buf) := by
  have hurx : usize_of_i32 (RX : Int) = RX := usize_of_i32_natCast _ (by omega)
  have hury : usize_of_i32 (RY : Int) = RY := usize_of_i32_natCast _ (by omega)
  have hupx : usize_of_i32 (PX : Int) = PX := usize_of_i32_natCast _ (by omega)
  have hupy : usize_of_i32 (PY : Int) = PY := usize_of_i32_natCast _ (by omega)
  unfold blit_alpha_pixel
  dsimp only
  rw [hurx, hury, hupx, hupy]
  constructor
  · intro hen
    rw [if_neg (by omega)]
    have hsi : (RY + y) * SW + (RX + x) < SW * SH := by
      rw [Nat.mul_comm SW SH]
      exact rowmajor_lt _ _ _ _ hy1 hen.1
    have hdi : (PY + y) * W + (PX + x) < W * H := by
      rw [Nat.mul_comm W H]
      exact rowmajor_lt _ _ _ _ hy2 hen.2
    rw [if_neg (by rw [hsrc, hbuf]; omega)]
    by_cases h255 : (src.getD ((RY + y) * SW + (RX + x)) 0 >>> 24 == 0xFF) = true
    · left
      rw [if_pos h255]
      unfold alpha_apply
      rw [if_pos h255]
    · by_cases hpos : src.getD ((RY + y) * SW + (RX + x)) 0 >>> 24 > 0
      · left
        rw [if_neg h255, if_pos hpos]
        unfold alpha_apply
        rw [if_neg h255, if_pos hpos]
      · right
        rw [if_neg h255, if_neg hpos]
        refine ⟨rfl, ?_⟩
        unfold alpha_apply
        rw [if_neg h255, if_neg hpos]
  · intro hen
    rw [if_pos (by omega)]

/-- Characterization of the alpha blit row loop: after n rows, exactly the
in-bounds pixels of the processed rows carry the source-over value and all
other positions are untouched. -/
theorem alpha_rows_char (src : List Nat) (SW SH W H RX RY PX PY rw rh : Nat)
    (hRX : RX < 2 ^ 31) (hRY : RY < 2 ^ 31) (hPX : PX < 2 ^ 31) (hPY : PY < 2 ^ 31)
    (hsrc : src.length = SW * SH) :
    ∀ (n : Nat) (buf : List Nat), buf.length = W * H →
      (iter_rows (blit_alpha_row src ⟨SW, SH⟩ ⟨W, H⟩ ⟨(RX : Int), (RY : Int), rw, rh⟩
          ⟨(PX : Int), (PY : Int)⟩) n buf).length = W * H ∧
      (∀ j, (¬ ∃ y x, y < n ∧ RY + y < SH ∧ PY + y < H ∧ x < rw ∧ RX + x < SW ∧
            PX + x < W ∧ j = (PY + y) * W + (PX + x)) →
        (iter_rows (blit_alpha_row src ⟨SW, SH⟩ ⟨W, H⟩ ⟨(RX : Int), (RY : Int), rw, rh⟩
            ⟨(PX : Int), (PY : Int)⟩) n buf)[j]? = buf[j]?) ∧
      (∀ y x, y < n → RY + y < SH → PY + y < H → x < rw → RX + x < SW → PX + x < W →
        (iter_rows (blit_alpha_row src ⟨SW, SH⟩ ⟨W, H⟩ ⟨(RX : Int), (RY : Int), rw, rh⟩
            ⟨(PX : Int), (PY : Int)⟩) n buf)[(PY + y) * W + (PX + x)]? =
          some (alpha_apply (src.getD ((RY + y) * SW + (RX + x)) 0)
            (buf.getD ((PY + y) * W + (PX + x)) 0))) := by
  have hury : usize_of_i32 (RY : Int) = RY := usize_of_i32_natCast _ (by omega)
  have hupy : usize_of_i32 (PY : Int) = PY := usize_of_i32_natCast _ (by omega)
  intro n
  induction n with
  | zero =>
      intro buf hb
      exact ⟨hb, fun j _ => rfl, fun y x hy => absurd hy (by omega)⟩
  | succ n ih =>
      intro buf hb
      obtain ⟨ihl, ihn, ihw⟩ := ih buf hb
      have hunf : iter_rows (blit_alpha_row src ⟨SW, SH⟩ ⟨W, H⟩
            ⟨(RX : Int), (RY : Int), rw, rh⟩ ⟨(PX : Int), (PY : Int)⟩) (n + 1) buf =
          blit_alpha_row src ⟨SW, SH⟩ ⟨W, H⟩ ⟨(RX : Int), (RY : Int), rw, rh⟩
            ⟨(PX : Int), (PY : Int)⟩
            (iter_rows (blit_alpha_row src ⟨SW, SH⟩ ⟨W, H⟩
              ⟨(RX : Int), (RY : Int), rw, rh⟩ ⟨(PX : Int), (PY : Int)⟩) n buf) n := rfl
      rw [hunf]
      by_cases hrow : RY + n < SH ∧ PY + n < H
      · have hrew : blit_alpha_row src ⟨SW, SH⟩ ⟨W, H⟩ ⟨(RX : Int), (RY : Int), rw, rh⟩
              ⟨(PX : Int), (PY : Int)⟩
              (iter_rows (blit_alpha_row src ⟨SW, SH⟩ ⟨W, H⟩
                ⟨(RX : Int), (RY : Int), rw, rh⟩ ⟨(PX : Int), (PY : Int)⟩) n buf) n =
            iter_rows (fun b x => blit_alpha_pixel src ⟨SW, SH⟩ ⟨W, H⟩
                ⟨(RX : Int), (RY : Int), rw, rh⟩ ⟨(PX : Int), (PY : Int)⟩ n b x) rw
              (iter_rows (blit_alpha_row src ⟨SW, SH⟩ ⟨W, H⟩
                ⟨(RX : Int), (RY : Int), rw, rh⟩ ⟨(PX : Int), (PY : Int)⟩) n buf) := by
          unfold blit_alpha_row
          dsimp only
          rw [hury, hupy]
          rw [if_neg (by omega)]
        rw [hrew]
        obtain ⟨cl, cn, cw⟩ := iter_write_char
          (fun b x => blit_alpha_pixel src ⟨SW, SH⟩ ⟨W, H⟩
            ⟨(RX : Int), (RY : Int), rw, rh⟩ ⟨(PX : Int), (PY : Int)⟩ n b x)
          (W * H)
          (fun x => (PY + n) * W + (PX + x))
          (fun x d => alpha_apply (src.getD ((RY + n) * SW + (RX + x)) 0) d)
          (fun x => RX + x < SW ∧ PX + x < W)
          (fun x hx => by
            rw [Nat.mul_comm W H]
            exact rowmajor_lt _ _ _ _ hrow.2 hx.2)
          (fun x1 x2 e1 e2 he => by simp only at he; omega)
          (fun b x hbl hen =>
            (alpha_pixel_write src SW SH W H RX RY PX PY rw rh n hRX hRY hPX hPY hsrc
              hrow.1 hrow.2 b x hbl).1 hen)
          (fun b x hbl hen =>
            (alpha_pixel_write src SW SH W H RX RY PX PY rw rh n hRX hRY hPX hPY hsrc
              hrow.1 hrow.2 b x hbl).2 hen)
          rw
          (iter_rows (blit_alpha_row src ⟨SW, SH⟩ ⟨W, H⟩
            ⟨(RX : Int), (RY : Int), rw, rh⟩ ⟨(PX : Int), (PY : Int)⟩) n buf)
          ihl
        refine ⟨cl, ?_, ?_⟩
        · intro j hj
          have hcn : (¬ ∃ x, x < rw ∧ (RX + x < SW ∧ PX + x < W) ∧
              j = (PY + n) * W + (PX + x)) := by
            rintro ⟨x, hx, hex, hjx⟩
            exact hj ⟨n, x, by omega, hrow.1, hrow.2, hx, hex.1, hex.2, hjx⟩
          rw [cn j hcn]
          exact ihn j (fun ⟨y, x, hy, h1, h2, h3, h4, h5, hjx⟩ =>
            hj ⟨y, x, by omega, h1, h2, h3, h4, h5, hjx⟩)
        · intro y x hy h1 h2 h3 h4 h5
          by_cases hyn : y = n
          · subst hyn
            have hBn : (iter_rows (blit_alpha_row src ⟨SW, SH⟩ ⟨W, H⟩
                  ⟨(RX : Int), (RY : Int), rw, rh⟩ ⟨(PX : Int), (PY : Int)⟩) y
                  buf)[(PY + y) * W + (PX + x)]? = buf[(PY + y) * W + (PX + x)]? := by
              refine ihn _ (fun ⟨y2, x2, hy2, g1, g2, g3, g4, g5, hjx⟩ => ?_)
              obtain ⟨hr, _⟩ := rowmajor_inj (PY + y2) (PY + y) (PX + x2) (PX + x) W g5 h5
                hjx.symm
              omega
            rw [cw x h3 ⟨h4, h5⟩, getD_congr _ _ _ hBn]
          · have hBn : (iter_rows (fun b x => blit_alpha_pixel src ⟨SW, SH⟩ ⟨W, H⟩
                  ⟨(RX : Int), (RY : Int), rw, rh⟩ ⟨(PX : Int), (PY : Int)⟩ n b x) rw
                  (iter_rows (blit_alpha_row src ⟨SW, SH⟩ ⟨W, H⟩
                    ⟨(RX : Int), (RY : Int), rw, rh⟩ ⟨(PX : Int), (PY : Int)⟩) n
                    buf))[(PY + y) * W + (PX + x)]? =
                (iter_rows (blit_alpha_row src ⟨SW, SH⟩ ⟨W, H⟩
                  ⟨(RX : Int), (RY : Int), rw, rh⟩ ⟨(PX : Int), (PY : Int)⟩) n
                  buf)[(PY + y) * W + (PX + x)]? := by
              refine cn _ (fun ⟨x2, hx2, hex2, hjx⟩ => ?_)
              obtain ⟨hr, _⟩ := rowmajor_inj (PY + y) (PY + n) (PX + x) (PX + x2) W h5 hex2.2
                hjx
              omega
            rw [hBn]
            exact ihw y x (by omega) h1 h2 h3 h4 h5
      · have hrew : blit_alpha_row src ⟨SW, SH⟩ ⟨W, H⟩ ⟨(RX : Int), (RY : Int), rw, rh⟩
              ⟨(PX : Int), (PY : Int)⟩
              (iter_rows (blit_alpha_row src ⟨SW, SH⟩ ⟨W, H⟩
                ⟨(RX : Int), (RY : Int), rw, rh⟩ ⟨(PX : Int), (PY : Int)⟩) n buf) n =
            iter_rows (blit_alpha_row src ⟨SW, SH⟩ ⟨W, H⟩
              ⟨(RX : Int), (RY : Int), rw, rh⟩ ⟨(PX : Int), (PY : Int)⟩) n buf := by
          unfold blit_alpha_row
          dsimp only
          rw [hury, hupy]
          rw [if_pos (by omega)]
        rw [hrew]
        refine ⟨ihl, ?_, ?_⟩
        · intro j hj
          exact ihn j (fun ⟨y, x, hy, h1, h2, h3, h4, h5, hjx⟩ =>
            hj ⟨y, x, by omega, h1, h2, h3, h4, h5, hjx⟩)
        · intro y x hy h1 h2 h3 h4 h5
          by_cases hyn : y = n
          · subst hyn
            exact absurd ⟨h1, h2⟩ hrow
          · exact ihw y x (by omega) h1 h2 h3 h4 h5

set_option maxHeartbeats 2000000 in
/-- Membership of a destination pixel in the spec intersection area, in
plain arithmetic. -/
theorem inter_area_contains (SW SH W H RX RY PX PY rw rh dx dy : Nat) :
    (match inter_area ⟨W, H⟩ ⟨SW, SH⟩ ⟨(RX : Int), (RY : Int), rw, rh⟩
        ⟨(PX : Int), (PY : Int)⟩ with
     | some ir => ir.contains_point ⟨(dx : Int), (dy : Int)⟩
     | none => false) = true ↔
    (PX ≤ dx ∧ dx - PX < rw ∧ RX + (dx - PX) < SW ∧ dx < W ∧
     PY ≤ dy ∧ dy - PY < rh ∧ RY + (dy - PY) < SH ∧ dy < H) := by
  unfold inter_area Rect.from_size Rect.intersection Rect.offset Rect.contains_point
  unfold Rect.right Rect.bottom
  dsimp only
  split
  next x r heq =>
    by_cases hC1 : (max (RX : Int) 0 < min ((RX : Int) + (rw : Int)) (0 + (SW : Int)) ∧
        max (RY : Int) 0 < min ((RY : Int) + (rh : Int)) (0 + (SH : Int)))
    · rw [if_pos hC1, Option.some_bind] at heq
      dsimp only at heq
      split at heq
      next hC2 =>
        cases heq
        dsimp only
        simp only [Bool.and_eq_true, decide_eq_true_eq]
        omega
      next hC2 =>
        cases heq
    · rw [if_neg hC1, Option.none_bind] at heq
      cases heq
  next x heq =>
    simp only [Bool.false_eq_true, false_iff]
    intro h
    by_cases hC1 : (max (RX : Int) 0 < min ((RX : Int) + (rw : Int)) (0 + (SW : Int)) ∧
        max (RY : Int) 0 < min ((RY : Int) + (rh : Int)) (0 + (SH : Int)))
    · rw [if_pos hC1, Option.some_bind] at heq
      dsimp only at heq
      split at heq
      next hC2 => cases heq
      next hC2 => omega
    · omega

/-- Exactness of the alpha blit at in-range natural coordinates: the result
equals the specified blit, which touches exactly the intersection area. -/
theorem blit_alpha_exact (dst src : List Nat) (SW SH W H RX RY PX PY rw rh : Nat)
    (hRX : RX < 2 ^ 31) (hRY : RY < 2 ^ 31) (hPX : PX < 2 ^ 31) (hPY : PY < 2 ^ 31)
    (hdst : dst.length = W * H) (hsrc : src.length = SW * SH) :
    blit_alpha dst ⟨W, H⟩ src ⟨SW, SH⟩ ⟨(RX : Int), (RY : Int), rw, rh⟩
        ⟨(PX : Int), (PY : Int)⟩ =
      blit_alpha_spec dst ⟨W, H⟩ src ⟨SW, SH⟩ ⟨(RX : Int), (RY : Int), rw, rh⟩
        ⟨(PX : Int), (PY : Int)⟩ := by
  obtain ⟨hl, hnj, hwj⟩ := alpha_rows_char src SW SH W H RX RY PX PY rw rh
    hRX hRY hPX hPY hsrc rh dst hdst
  have hba : blit_alpha dst ⟨W, H⟩ src ⟨SW, SH⟩ ⟨(RX : Int), (RY : Int), rw, rh⟩
        ⟨(PX : Int), (PY : Int)⟩ =
      iter_rows (blit_alpha_row src ⟨SW, SH⟩ ⟨W, H⟩ ⟨(RX : Int), (RY : Int), rw, rh⟩
        ⟨(PX : Int), (PY : Int)⟩) rh dst := rfl
  rw [hba]
  apply List.ext_getElem?
  intro j
  have hlenspec : (blit_alpha_spec dst ⟨W, H⟩ src ⟨SW, SH⟩
      ⟨(RX : Int), (RY : Int), rw, rh⟩ ⟨(PX : Int), (PY : Int)⟩).length = W * H := by
    unfold blit_alpha_spec
    rw [List.length_mapIdx]
    exact hdst
  by_cases hj : j < W * H
  · have hW : 0 < W := by
      rcases Nat.eq_zero_or_pos W with h0 | h
      · rw [h0, Nat.zero_mul] at hj
        omega
      · exact h
    have hjd : j < dst.length := by omega
    have hdx : j % W < W := Nat.mod_lt _ hW
    have hdy : j / W < H := by
      rw [Nat.div_lt_iff_lt_mul hW]
      rw [Nat.mul_comm W H] at hj
      exact hj
    have hsplit : (j / W) * W + j % W = j := by
      rw [Nat.mul_comm (j / W) W]
      exact Nat.div_add_mod j W
    have hspecj : (blit_alpha_spec dst ⟨W, H⟩ src ⟨SW, SH⟩
        ⟨(RX : Int), (RY : Int), rw, rh⟩ ⟨(PX : Int), (PY : Int)⟩)[j]? =
        some (if 0 < W then
          match inter_area ⟨W, H⟩ ⟨SW, SH⟩ ⟨(RX : Int), (RY : Int), rw, rh⟩
              ⟨(PX : Int), (PY : Int)⟩ with
          | some ir =>
              if ir.contains_point ⟨((j % W : Nat) : Int), ((j / W : Nat) : Int)⟩ then
                alpha_apply
                  (src.getD
                    (((RY : Int) + (((j / W : Nat) : Int) - (PY : Int))).toNat * SW +
                      ((RX : Int) + (((j % W : Nat) : Int) - (PX : Int))).toNat) 0)
                  dst[j]
              else dst[j]
          | none => dst[j]
        else dst[j]) := by
      unfold blit_alpha_spec
      rw [List.getElem?_mapIdx, List.getElem?_eq_getElem hjd]
      rfl
    rw [hspecj]
    by_cases hcond : (PX ≤ j % W ∧ j % W - PX < rw ∧ RX + (j % W - PX) < SW ∧ j % W < W ∧
        PY ≤ j / W ∧ j / W - PY < rh ∧ RY + (j / W - PY) < SH ∧ j / W < H)
    · have hmem := (inter_area_contains SW SH W H RX RY PX PY rw rh (j % W) (j / W)).mpr hcond
      have hwrite := hwj (j / W - PY) (j % W - PX) (by omega) (by omega) (by omega)
        (by omega) (by omega) (by omega)
      have hyy : PY + (j / W - PY) = j / W := by omega
      have hxx : PX + (j % W - PX) = j % W := by omega
      rw [hyy, hxx, hsplit] at hwrite
      rw [hwrite]
      rw [if_pos hW]
      cases hIA : inter_area ⟨W, H⟩ ⟨SW, SH⟩ ⟨(RX : Int), (RY : Int), rw, rh⟩
          ⟨(PX : Int), (PY : Int)⟩ with
      | none => rw [hIA] at hmem; simp at hmem
      | some ir =>
          rw [hIA] at hmem
          dsimp only at hmem ⊢
          rw [if_pos hmem]
          have hsy : ((RY : Int) + (((j / W : Nat) : Int) - (PY : Int))).toNat =
              RY + (j / W - PY) := by omega
          have hsx : ((RX : Int) + (((j % W : Nat) : Int) - (PX : Int))).toNat =
              RX + (j % W - PX) := by omega
          rw [hsy, hsx]
          rw [List.getD_eq_getElem?_getD dst j, List.getElem?_eq_getElem hjd]
          rfl
    · have hmem : ¬ ((match inter_area ⟨W, H⟩ ⟨SW, SH⟩
          ⟨(RX : Int), (RY : Int), rw, rh⟩ ⟨(PX : Int), (PY : Int)⟩ with
          | some ir => ir.contains_point ⟨((j % W : Nat) : Int), ((j / W : Nat) : Int)⟩
          | none => false) = true) := fun h =>
        hcond ((inter_area_contains SW SH W H RX RY PX PY rw rh (j % W) (j / W)).mp h)
      have hskip := hnj j (fun ⟨y, x, hy, g1, g2, g3, g4, g5, hjx⟩ => by
        apply hcond
        have hj2 : j = (PY + y) * W + (PX + x) := hjx
        obtain ⟨hr, hc⟩ := rowmajor_inj (j / W) (PY + y) (j % W) (PX + x) W hdx g5
          (by rw [hsplit, hj2])
        refine ⟨by omega, by omega, by omega, hdx, by omega, by omega, by omega, hdy⟩)
      rw [hskip]
      rw [if_pos hW]
      cases hIA : inter_area ⟨W, H⟩ ⟨SW, SH⟩ ⟨(RX : Int), (RY : Int), rw, rh⟩
          ⟨(PX : Int), (PY : Int)⟩ with
      | none =>
          dsimp only
          rw [List.getElem?_eq_getElem hjd]
      | some ir =>
          rw [hIA] at hmem
          dsimp only at hmem ⊢
          rw [if_neg (by simpa using hmem)]
          rw [List.getElem?_eq_getElem hjd]
  · have h1 : (iter_rows (blit_alpha_row src ⟨SW, SH⟩ ⟨W, H⟩
        ⟨(RX : Int), (RY : Int), rw, rh⟩ ⟨(PX : Int), (PY : Int)⟩) rh dst)[j]? = none := by
      rw [List.getElem?_eq_none]
      omega
    have h2 : (blit_alpha_spec dst ⟨W, H⟩ src ⟨SW, SH⟩
        ⟨(RX : Int), (RY : Int), rw, rh⟩ ⟨(PX : Int), (PY : Int)⟩)[j]? = none := by
      rw [List.getElem?_eq_none]
      omega
    rw [h1, h2]

/-- C6 (amended): both blit entry points are memory safe (their
bounds-checked variants always succeed: no out-of-bounds index of either
buffer is ever accessed); the alpha blit touches exactly the pixels of the
intersection area for in-range (i32) coordinates and correctly sized
buffers; the opaque blit clips the destination rect but clamps rather than
clips the source horizontally, so a source rect reaching past the source
width copies row-wrapped source pixels (see the counterexample). -/
theorem claim_C6 :
    (∀ (dst : List Nat) (dst_size : Size) (src : List Nat) (src_size : Size)
        (src_rect : Rect) (dst_point : Point),
      blit_opaque_checked dst dst_size src src_size src_rect dst_point =
        some ( blit_opaque dst dst_size src src_size src_rect dst_point))
    ∧ (∀ (dst : List Nat) (dst_size : Size) (src : List Nat) (src_size : Size)
        (src_rect : Rect) (dst_point : Point),
      blit_alpha_checked dst dst_size src src_size src_rect dst_point =
        some (blit_alpha dst dst_size src src_size src_rect dst_point))
    ∧ (∀ (dst : List Nat) (dst_size : Size) (src : List Nat) (src_size : Size)
        (src_rect : Rect) (dst_point : Point),
      dst.length = dst_size.width * dst_size.height →
      src.length = src_size.width * src_size.height →
      0 ≤ src_rect.x → src_rect.x < 2 ^ 31 →
      0 ≤ src_rect.y → src_rect.y < 2 ^ 31 →
      0 ≤ dst_point.x → dst_point.x < 2 ^ 31 →
      0 ≤ dst_point.y → dst_point.y < 2 ^ 31 →
      blit_alpha dst dst_size src src_size src_rect dst_point =
        blit_alpha_spec dst dst_size src src_size src_rect dst_point) := by
  refine ⟨blit_opaque_checked_eq, blit_alpha_checked_eq, ?_⟩
  intro dst dst_size src src_size src_rect dst_point h1 h2 h3 h4 h5 h6 h7 h8 h9 h10
  obtain ⟨W, H⟩ := dst_size
  obtain ⟨SW, SH⟩ := src_size
  obtain ⟨rx, ry, rww, rhh⟩ := src_rect
  obtain ⟨px, py⟩ := dst_point
  dsimp only at h1 h2 h3 h4 h5 h6 h7 h8 h9 h10
  obtain ⟨RX, rfl⟩ : ∃ n : Nat, rx = (n : Int) := ⟨rx.toNat, by omega⟩
  obtain ⟨RY, rfl⟩ : ∃ n : Nat, ry = (n : Int) := ⟨ry.toNat, by omega⟩
  obtain ⟨PX, rfl⟩ : ∃ n : Nat, px = (n : Int) := ⟨px.toNat, by omega⟩
  obtain ⟨PY, rfl⟩ : ∃ n : Nat, py = (n : Int) := ⟨py.toNat, by omega⟩
  exact blit_alpha_exact dst src SW SH W H RX RY PX PY rww rhh
    (by omega) (by omega) (by omega) (by omega) h1 h2

/-- C6 witness: the alpha-blit exactness evaluated on a concrete 2x2 opaque
source blitted into a 4x4 destination with a partly out-of-bounds source
rect. -/
theorem claim_C6_witness :
    blit_alpha (List.replicate 16 0) ⟨4, 4⟩
        [0xFF000001, 0xFF000002, 0xFF000003, 0xFF000004] ⟨2, 2⟩ ⟨1, 0, 2, 2⟩ ⟨0, 0⟩ =
      blit_alpha_spec (List.replicate 16 0) ⟨4, 4⟩
        [0xFF000001, 0xFF000002, 0xFF000003, 0xFF000004] ⟨2, 2⟩ ⟨1, 0, 2, 2⟩ ⟨0, 0⟩ :=
  claim_C6.2.2 (List.replicate 16 0) ⟨4, 4⟩
    [0xFF000001, 0xFF000002, 0xFF000003, 0xFF000004] ⟨2, 2⟩ ⟨1, 0, 2, 2⟩ ⟨0, 0⟩
    (by decide) (by decide) (by decide) (by decide) (by decide)
    (by decide) (by decide) (by decide) (by decide) (by decide)

end Firefly
